import Mathlib

/-!
# Verification of the returns-warranty-intel conversational assistant

Shallow embedding of the repository's coordinator, agents and retriever
(`app/chat_coordinator.py`, `app/agents/retrieval_agent.py`,
`app/agents/forecasting_agent.py`, `app/agents/report_agent.py`,
`app/rag/retrieve.py`, `app/db/models.py`, `app/schemas.py`).

Modelling conventions:
* Python strings are Lean `String`s; the ASCII fragments of `str.lower`,
  `str.strip`, `str.split` and of the regular expressions used by the
  coordinator are modelled character-by-character over `String.data`.
* Python floats produced by `float(<decimal literal>)` are modelled as exact
  rationals (`ℚ`); `str(float)` is modelled by `pyFloatRepr`, which agrees
  with CPython's shortest-round-trip repr on the short decimal literals the
  field-extraction regex can produce.
* `datetime.date` is a `(year, month, day)` record with real Gregorian
  calendar arithmetic (`Date.next`, `Date.toDays`).
* The database table behind SQLAlchemy is a `List Row`; the unique
  constraint on `dedupe_key` makes `commit` fail exactly when the key is
  already present, and a failed commit rolls back (table unchanged).
* Exceptions are `Except PyErr`; in-place mutation of the Python
  `ConversationState` is threaded explicitly, and a propagating exception
  carries the state as already mutated at the raise point.
* The sentence-transformer embedding is an explicit parameter
  `emb : String → List Q`; faiss `IndexFlatL2` search is exact squared-L2
  nearest neighbours with index-order tie-breaking and `-1` padding when
  `top_k` exceeds the number of stored vectors.
-/

namespace ReturnsIntel

/-! ## Python string primitives -/

/-- The whitespace characters recognised by `str.strip` / `str.split` /
regex `\s` (ASCII fragment). -/
def pyIsSpace (c : Char) : Bool :=
  c == ' ' || c == '\t' || c == '\n' || c == '\r' || c == '\x0b' || c == '\x0c'

/-- `str.strip()` : drop leading and trailing whitespace. -/
def pyStrip (s : String) : String :=
  ⟨((s.data.dropWhile pyIsSpace).reverse.dropWhile pyIsSpace).reverse⟩

/-- `str.lower()` (ASCII fragment). -/
def pyLower (s : String) : String := ⟨s.data.map Char.toLower⟩

/-- `str.upper()` (ASCII fragment). -/
def pyUpper (s : String) : String := ⟨s.data.map Char.toUpper⟩

/-- Does `cs` start with the pattern `pat`? -/
def leadsWith : List Char → List Char → Bool
  | [], _ => true
  | _ :: _, [] => false
  | p :: ps, c :: cs => p == c && leadsWith ps cs

/-- Case-insensitive `leadsWith`, for patterns given in lower case
(models a literal under `re.I`). -/
def leadsWithCI : List Char → List Char → Bool
  | [], _ => true
  | _ :: _, [] => false
  | p :: ps, c :: cs => p == c.toLower && leadsWithCI ps cs

/-- Substring containment over char lists. -/
def containsSub (pat : List Char) : List Char → Bool
  | [] => pat.isEmpty
  | c :: rest => leadsWith pat (c :: rest) || containsSub pat rest

/-- Python's `pat in s` on strings. -/
def pyIn (pat s : String) : Bool := containsSub pat.data s.data

/-- Auxiliary word counter: the Bool records whether we are inside a word. -/
def wordCountAux : List Char → Bool → Nat
  | [], _ => 0
  | c :: rest, inWord =>
    if pyIsSpace c then wordCountAux rest false
    else (if inWord then 0 else 1) + wordCountAux rest true

/-- `len(s.split())` — number of maximal whitespace-free runs. -/
def pyWordCount (s : String) : Nat := wordCountAux s.data false

/-! ## Gregorian dates (`datetime.date`) -/

structure Date where
  year : Nat
  month : Nat
  day : Nat
deriving DecidableEq

def isLeap (y : Nat) : Bool := (y % 4 == 0 && y % 100 != 0) || y % 400 == 0

def daysInMonth (y m : Nat) : Nat :=
  if m = 2 then (if isLeap y then 29 else 28)
  else if m = 4 ∨ m = 6 ∨ m = 9 ∨ m = 11 then 30
  else 31

/-- The next calendar day. -/
def Date.next (dt : Date) : Date :=
  if dt.day < daysInMonth dt.year dt.month then ⟨dt.year, dt.month, dt.day + 1⟩
  else if dt.month < 12 then ⟨dt.year, dt.month + 1, 1⟩
  else ⟨dt.year + 1, 1, 1⟩

/-- The previous calendar day. -/
def Date.prev (dt : Date) : Date :=
  if 1 < dt.day then ⟨dt.year, dt.month, dt.day - 1⟩
  else if 1 < dt.month then ⟨dt.year, dt.month - 1, daysInMonth dt.year (dt.month - 1)⟩
  else ⟨dt.year - 1, 12, 31⟩

/-- `d + timedelta(days = n)`. -/
def Date.addDays (dt : Date) : Nat → Date
  | 0 => dt
  | n + 1 => (Date.addDays dt n).next

/-- `d - timedelta(days = n)`. -/
def Date.subDays (dt : Date) : Nat → Date
  | 0 => dt
  | n + 1 => (Date.subDays dt n).prev

/-- Days before the first of month `m` in year `y`. -/
def daysBeforeMonth (y m : Nat) : Nat :=
  (List.range (m - 1)).foldl (fun a i => a + daysInMonth y (i + 1)) 0

/-- Rata-die style linearisation of a (valid) date, for chronological
comparison and day differences. -/
def Date.toDays (dt : Date) : Nat :=
  365 * (dt.year - 1) + (dt.year - 1) / 4 - (dt.year - 1) / 100 + (dt.year - 1) / 400
    + daysBeforeMonth dt.year dt.month + (dt.day - 1)

/-- Zero-padded decimal rendering of width 2. -/
def pad2 (n : Nat) : String := if n < 10 then "0" ++ toString n else toString n

/-- Zero-padded decimal rendering of width 4. -/
def pad4 (n : Nat) : String :=
  if n < 10 then "000" ++ toString n
  else if n < 100 then "00" ++ toString n
  else if n < 1000 then "0" ++ toString n
  else toString n

/-- `str(datetime.date)` — ISO format `YYYY-MM-DD`. -/
def isoDate (dt : Date) : String := pad4 dt.year ++ "-" ++ pad2 dt.month ++ "-" ++ pad2 dt.day

/-! ## Exact rationals with executable (kernel-reducible) arithmetic

Python floats are modelled as exact rationals.  Mathlib's `ℚ` arithmetic is
not reducible by `decide`, so the embedding carries its own canonical
fraction type `Q`: every constructor normalises through `mkQ`, making
structural equality coincide with rational equality. -/

/-- Euclidean gcd with structural fuel (`fuel > m` suffices: the first
argument strictly decreases every step). -/
def gcdFuel : Nat → Nat → Nat → Nat
  | 0, _, n => n
  | _ + 1, 0, n => n
  | fuel + 1, m, n => gcdFuel fuel (n % m) m

def gcdQ (m n : Nat) : Nat := gcdFuel (m + 1) m n

/-- A canonical fraction: `den` positive and coprime to `num` whenever the
value is built through `mkQ`. -/
structure Q where
  num : Int
  den : Nat
deriving DecidableEq

/-- Normalising constructor (`d = 0` yields `0`, the usual junk value —
unreachable in the embedded code, which never divides by zero). -/
def mkQ (n d : Int) : Q :=
  if d = 0 then ⟨0, 1⟩
  else
    let n' : Int := if d < 0 then -n else n
    let dAbs := d.natAbs
    let g := gcdQ n'.natAbs dAbs
    ⟨n' / (g : Int), dAbs / g⟩

def Q.ofNat (n : Nat) : Q := ⟨(n : Int), 1⟩

instance (n : Nat) : OfNat Q n := ⟨Q.ofNat n⟩

def Q.add (a b : Q) : Q := mkQ (a.num * b.den + b.num * a.den) ((a.den : Int) * b.den)

def Q.sub (a b : Q) : Q := mkQ (a.num * b.den - b.num * a.den) ((a.den : Int) * b.den)

def Q.mul (a b : Q) : Q := mkQ (a.num * b.num) ((a.den : Int) * b.den)

def Q.div (a b : Q) : Q := mkQ (a.num * b.den) ((a.den : Int) * b.num)

def Q.qabs (a : Q) : Q := ⟨(a.num.natAbs : Int), a.den⟩

/-- `a < b` on fractions. -/
def Q.blt (a b : Q) : Bool := a.num * (b.den : Int) < b.num * (a.den : Int)

def qsum (l : List Q) : Q := l.foldl Q.add ⟨0, 1⟩

/-! ## Decimal numbers (`float(<decimal literal>)` and `str(float)`) -/

def digitVal (c : Char) : Nat := c.toNat - 48

def digitsToNat (ds : List Char) : Nat := ds.foldl (fun a c => 10 * a + digitVal c) 0

/-- Value of `float("<int digits>.<frac digits>")` as an exact rational. -/
def ratOfDigits (intDs fracDs : List Char) : Q :=
  mkQ ((digitsToNat intDs : Int) * (10 : Int) ^ fracDs.length + (digitsToNat fracDs : Int))
    ((10 : Int) ^ fracDs.length)

/-- Number of times `p` divides `n`, with structural fuel (`fuel ≥ n` makes
it exact, since `n` at least halves at every division by `p ≥ 2`). -/
def multOfFuel (p : Nat) : Nat → Nat → Nat
  | 0, _ => 0
  | fuel + 1, n => if 2 ≤ p ∧ 0 < n ∧ n % p = 0 then multOfFuel p fuel (n / p) + 1 else 0

/-- Number of times `p` divides `n` (`p ≥ 2`). -/
def multOf (p : Nat) (n : Nat) : Nat := multOfFuel p n n

/-- The last `k` decimal digits of `n`, zero padded. -/
def natDigitsPadded : Nat → Nat → String
  | 0, _ => ""
  | k + 1, n => natDigitsPadded k (n / 10) ++ toString (n % 10)

/-- `str(float)` on exact decimals: CPython prints the shortest decimal that
round-trips, which for the short decimal literals arising in this program is
the reduced decimal expansion, with `.0` appended to integral values. -/
def pyFloatRepr (q : Q) : String :=
  let k := max (multOf 2 q.den) (multOf 5 q.den)
  let scaled : Q := q.mul ⟨(10 : Int) ^ k, 1⟩
  if scaled.den = 1 then
    let sign := if scaled.num < 0 then "-" else ""
    let m := scaled.num.natAbs
    if k = 0 then sign ++ toString m ++ ".0"
    else sign ++ toString (m / 10 ^ k) ++ "." ++ natDigitsPadded k (m % 10 ^ k)
  else toString q.num ++ "/" ++ toString q.den

/-! ## The regular expressions of `Coordinator._extract_fields`

Each searcher walks the positions of the text left to right (leftmost match)
and models the backtracking of the specific pattern exactly.  They operate on
the original characters so captured groups keep their case. -/

/-- `\s*(.+)` starting at `cs`, trying `k` whitespace characters for `\s*`
from the given count downwards (greedy with backtracking); `.` does not match
a newline and `(.+)` is greedy. -/
def ssdpTry (cs : List Char) : Nat → Option (List Char)
  | 0 =>
    match cs with
    | [] => none
    | c :: _ => if c == '\n' then none else some (cs.takeWhile (fun x => x != '\n'))
  | k + 1 =>
    match cs.drop (k + 1) with
    | [] => ssdpTry cs k
    | c :: _ =>
      if c == '\n' then ssdpTry cs k
      else some ((cs.drop (k + 1)).takeWhile (fun x => x != '\n'))

/-- `\s*(.+)` at `cs`: the group captured, if the tail matches. -/
def spaceStarDotPlus (cs : List Char) : Option (List Char) :=
  ssdpTry cs (cs.takeWhile pyIsSpace).length

/-- `\s+(.+)` at `cs`: at least one whitespace character, then as `\s*(.+)`. -/
def spacePlusDotPlus (cs : List Char) : Option (List Char) :=
  match cs with
  | [] => none
  | c :: rest => if pyIsSpace c then spaceStarDotPlus rest else none

/-- `(?:my|an|a)?\s*(.+)` at `cs`, alternatives in regex order with
backtracking into the empty alternative. -/
def altSSDP (cs : List Char) : Option (List Char) :=
  (if leadsWithCI ['m', 'y'] cs then spaceStarDotPlus (cs.drop 2) else none) <|>
  (if leadsWithCI ['a', 'n'] cs then spaceStarDotPlus (cs.drop 2) else none) <|>
  (if leadsWithCI ['a'] cs then spaceStarDotPlus (cs.drop 1) else none) <|>
  spaceStarDotPlus cs

/-- `re.search(r"return (?:my|an|a)?\s*(.+)", text, re.I)` — group 1. -/
def searchProduct : List Char → Option (List Char)
  | [] => none
  | c :: rest =>
    (if leadsWithCI ['r', 'e', 't', 'u', 'r', 'n', ' '] (c :: rest) then
      altSSDP ((c :: rest).drop 7) else none) <|>
    searchProduct rest

/-- `re.search(r"(?:from|at)\s+(.+)", text, re.I)` — group 1. -/
def searchStore : List Char → Option (List Char)
  | [] => none
  | c :: rest =>
    (if leadsWithCI ['f', 'r', 'o', 'm'] (c :: rest) then
      spacePlusDotPlus ((c :: rest).drop 4) else none) <|>
    (if leadsWithCI ['a', 't'] (c :: rest) then
      spacePlusDotPlus ((c :: rest).drop 2) else none) <|>
    searchStore rest

/-- Match of `(\d+(?:\.\d+)?)\s*([A-Za-z]{2,5})` anchored at `cs`.
Backtracking inside `\d+`, the fractional group and `\s*` can never produce a
match that the greedy choice misses (digits are neither `.`, whitespace nor
letters), so the greedy reading is exact. -/
def matchPriceAt (cs : List Char) : Option (Q × String) :=
  match cs with
  | [] => none
  | c :: _ =>
    if c.isDigit then
      let ds := cs.takeWhile Char.isDigit
      let rest := cs.drop ds.length
      let fds :=
        match rest with
        | '.' :: r2 => r2.takeWhile Char.isDigit
        | _ => []
      let rest2 := if fds.isEmpty then rest else rest.drop (fds.length + 1)
      let rest3 := rest2.dropWhile pyIsSpace
      let letters := rest3.takeWhile Char.isAlpha
      if 2 ≤ letters.length then
        some (ratOfDigits ds fds, pyUpper ⟨letters.take 5⟩)
      else none
    else none

/-- `re.search(r"(\d+(?:\.\d+)?)\s*([A-Za-z]{2,5})", text)` —
`(float(group 1), group(2).upper())`. -/
def searchPrice : List Char → Option (Q × String)
  | [] => none
  | c :: rest => matchPriceAt (c :: rest) <|> searchPrice rest

/-- Word character for `\b` (ASCII fragment of `\w`). -/
def isWordChar (c : Char) : Bool := c.isAlphanum || c == '_'

/-- Match of `\b(20\d{2}-\d{2}-\d{2})\b` anchored at `cs`, where `prevW` says
whether the character before `cs` is a word character.  Returns the captured
`(yy, mm, dd)` digit values (year offset from 2000), not yet validated. -/
def matchIsoAt (prevW : Bool) (cs : List Char) : Option (Nat × Nat × Nat) :=
  match cs with
  | '2' :: '0' :: y1 :: y2 :: '-' :: m1 :: m2 :: '-' :: d1 :: d2 :: rest =>
    if prevW then none
    else if y1.isDigit && y2.isDigit && m1.isDigit && m2.isDigit
        && d1.isDigit && d2.isDigit then
      match rest with
      | [] => some (digitsToNat [y1, y2], digitsToNat [m1, m2], digitsToNat [d1, d2])
      | c :: _ =>
        if isWordChar c then none
        else some (digitsToNat [y1, y2], digitsToNat [m1, m2], digitsToNat [d1, d2])
    else none
  | _ => none

/-- `re.search(r"\b(20\d{2}-\d{2}-\d{2})\b", text)` — leftmost match. -/
def searchIsoDate (prevW : Bool) : List Char → Option (Nat × Nat × Nat)
  | [] => none
  | c :: rest => matchIsoAt prevW (c :: rest) <|> searchIsoDate (isWordChar c) rest

/-! ## Python exceptions -/

inductive PyErr where
  | valueError (msg : String)
  | runtimeError (msg : String)
  | indexError (msg : String)
deriving DecidableEq

instance exceptDecEq {ε α : Type} [DecidableEq ε] [DecidableEq α] :
    DecidableEq (Except ε α) := fun x y =>
  match x, y with
  | .ok a, .ok b => if h : a = b then isTrue (by rw [h]) else isFalse (by simp [h])
  | .error a, .error b => if h : a = b then isTrue (by rw [h]) else isFalse (by simp [h])
  | .ok _, .error _ => isFalse (by simp)
  | .error _, .ok _ => isFalse (by simp)

/-! ## `ConversationState` (`app/chat_coordinator.py`)

`pending_return` is a dict from field name to `None`-able value; the typed
record below carries the same eleven keys.  Python truthiness on the slots
(`if not state.pending_return[k]`) is `truthyStr` / `truthyRat` /
`truthyDate`: `None`, `""` and `0.0` are falsy, any `date` is truthy. -/

structure Pending where
  product_name : Option String := none
  product_category : Option String := none
  store_name : Option String := none
  city : Option String := none
  country : Option String := none
  purchase_date : Option Date := none
  return_date : Option Date := none
  reason_raw : Option String := none
  price : Option Q := none
  currency : Option String := none
  discount_pct : Option Q := none
deriving DecidableEq

def truthyStr : Option String → Bool
  | none => false
  | some s => !s.isEmpty

def truthyRat : Option Q → Bool
  | none => false
  | some q => q.num != 0

def truthyDate : Option Date → Bool
  | none => false
  | some _ => true

structure ConversationState where
  pending : Pending := {}
  mode : Option String := none
deriving DecidableEq

/-! ## `Coordinator._extract_fields`, block by block -/

/-- PRODUCT block: `return …` pattern, else whole short utterance. -/
def productPass (text : String) (p : Pending) : Pending :=
  if truthyStr p.product_name then p
  else
    match searchProduct text.data with
    | some g => { p with product_name := some (pyStrip ⟨g⟩) }
    | none =>
      if pyWordCount text ≤ 4 then { p with product_name := some (pyStrip text) }
      else p

/-- STORE block: `from/at …` pattern, else short utterance once the product
is known and no blocklisted keyword occurs. -/
def storePass (text : String) (p : Pending) : Pending :=
  if truthyStr p.store_name then p
  else
    let t := pyLower text
    match searchStore text.data with
    | some g => { p with store_name := some (pyStrip ⟨g⟩) }
    | none =>
      if truthyStr p.product_name && pyWordCount text ≤ 5
          && !(pyIn "working" t) && !(pyIn "broken" t) && !(pyIn "week" t)
          && !(pyIn "today" t) then
        { p with store_name := some (pyStrip text) }
      else p

/-- REASON block: defect keywords make the whole utterance the reason. -/
def reasonPass (text : String) (p : Pending) : Pending :=
  if truthyStr p.reason_raw then p
  else
    let t := pyLower text
    if pyIn "not working" t || pyIn "broken" t || pyIn "defective" t then
      { p with reason_raw := some (pyStrip text) }
    else p

/-- PRICE + CURRENCY block: both set together from one combined match. -/
def pricePass (text : String) (p : Pending) : Pending :=
  if truthyRat p.price && truthyStr p.currency then p
  else
    match searchPrice text.data with
    | some (q, cur) => { p with price := some q, currency := some cur }
    | none => p

/-- `datetime.strptime(g, "%Y-%m-%d").date()` on the captured ISO group:
month outside 01–12 (or day outside 01–31) fails the format regex, a
shape-valid day beyond the month's length fails date construction. -/
def strptimeDate (yy mm dd : Nat) : Except PyErr Date :=
  if 1 ≤ mm ∧ mm ≤ 12 ∧ 1 ≤ dd ∧ dd ≤ 31 then
    if dd ≤ daysInMonth (2000 + yy) mm then .ok ⟨2000 + yy, mm, dd⟩
    else .error (.valueError "day is out of range for month")
  else .error (.valueError "time data does not match format %Y-%m-%d")

/-- PURCHASE DATE block: `"last week"` → today − 7 days, otherwise a literal
ISO date; an invalid matched date raises out of the whole pass. -/
def purchasePass (today : Date) (text : String) (p : Pending) : Except PyErr Pending :=
  if truthyDate p.purchase_date then .ok p
  else
    let t := pyLower text
    if pyIn "last week" t then .ok { p with purchase_date := some (today.subDays 7) }
    else
      match searchIsoDate false text.data with
      | none => .ok p
      | some (yy, mm, dd) =>
        match strptimeDate yy mm dd with
        | .ok d => .ok { p with purchase_date := some d }
        | .error e => .error e

/-- RETURN DATE block: only the literal word `"today"` sets it. -/
def returnDatePass (today : Date) (text : String) (p : Pending) : Pending :=
  if truthyDate p.return_date then p
  else if pyIn "today" (pyLower text) then { p with return_date := some today }
  else p

/-- `Coordinator._extract_fields`.  On an exception the error carries the
dict as already mutated by the earlier blocks (in-place mutation). -/
def extractFields (today : Date) (text : String) (p : Pending) :
    Except (PyErr × Pending) Pending :=
  let p4 := pricePass text (reasonPass text (storePass text (productPass text p)))
  match purchasePass today text p4 with
  | .error e => .error (e, p4)
  | .ok p5 => .ok (returnDatePass today text p5)

/-- Truthiness of a required field looked up by key, as
`state.pending_return.get(k)`. -/
def fieldTruthy (p : Pending) : String → Bool
  | "product_name" => truthyStr p.product_name
  | "store_name" => truthyStr p.store_name
  | "purchase_date" => truthyDate p.purchase_date
  | "reason_raw" => truthyStr p.reason_raw
  | "price" => truthyRat p.price
  | "currency" => truthyStr p.currency
  | _ => false

def requiredFields : List String :=
  ["product_name", "store_name", "purchase_date", "reason_raw", "price", "currency"]

/-- `Coordinator._missing_fields`. -/
def missingFields (p : Pending) : List String :=
  requiredFields.filter (fun k => !fieldTruthy p k)

/-- `Coordinator._ask_next`. -/
def askNext (missing : List String) : String :=
  if "product_name" ∈ missing then "What product are you returning?"
  else if "store_name" ∈ missing then "Which store did you buy it from?"
  else if "purchase_date" ∈ missing then "When did you purchase it? (YYYY-MM-DD or 'last week')"
  else if "return_date" ∈ missing then "When is the return date?"
  else if "reason_raw" ∈ missing then "What is the reason for return?"
  else if "price" ∈ missing ∨ "currency" ∈ missing then "What was the price and currency?"
  else "Please provide the missing details."

/-! ## SHA-256 (`hashlib.sha256(...).hexdigest()`)

FIPS 180-4, over `Nat` with explicit reduction modulo `2 ^ 32`. -/

def u32 (n : Nat) : Nat := n % 4294967296

def rotRight (k n : Nat) : Nat := u32 ((n >>> k) ||| (n <<< (32 - k)))

def shaCh (x y z : Nat) : Nat := (x &&& y) ^^^ ((x ^^^ 4294967295) &&& z)

def shaMaj (x y z : Nat) : Nat := (x &&& y) ^^^ (x &&& z) ^^^ (y &&& z)

def bigSigma0 (x : Nat) : Nat := rotRight 2 x ^^^ rotRight 13 x ^^^ rotRight 22 x

def bigSigma1 (x : Nat) : Nat := rotRight 6 x ^^^ rotRight 11 x ^^^ rotRight 25 x

def smallSigma0 (x : Nat) : Nat := rotRight 7 x ^^^ rotRight 18 x ^^^ (x >>> 3)

def smallSigma1 (x : Nat) : Nat := rotRight 17 x ^^^ rotRight 19 x ^^^ (x >>> 10)

def shaK : List Nat :=
  [1116352408, 1899447441, 3049323471, 3921009573, 961987163,
   1508970993, 2453635748, 2870763221, 3624381080, 310598401,
   607225278, 1426881987, 1925078388, 2162078206, 2614888103,
   3248222580, 3835390401, 4022224774, 264347078, 604807628,
   770255983, 1249150122, 1555081692, 1996064986, 2554220882,
   2821834349, 2952996808, 3210313671, 3336571891, 3584528711,
   113926993, 338241895, 666307205, 773529912, 1294757372,
   1396182291, 1695183700, 1986661051, 2177026350, 2456956037,
   2730485921, 2820302411, 3259730800, 3345764771, 3516065817,
   3600352804, 4094571909, 275423344, 430227734, 506948616,
   659060556, 883997877, 958139571, 1322822218, 1537002063,
   1747873779, 1955562222, 2024104815, 2227730452, 2361852424,
   2428436474, 2756734187, 3204031479, 3329325298]

def shaH0 : List Nat :=
  [1779033703, 3144134277, 1013904242, 2773480762,
   1359893119, 2600822924, 528734635, 1541459225]

/-- Extend a message schedule by one word. -/
def shaExtendStep (ws : List Nat) : List Nat :=
  let n := ws.length
  ws ++ [u32 (smallSigma1 (ws.getD (n - 2) 0) + ws.getD (n - 7) 0
    + smallSigma0 (ws.getD (n - 15) 0) + ws.getD (n - 16) 0)]

/-- The 64-word message schedule from the 16 block words. -/
def shaSchedule (ws : List Nat) : List Nat :=
  (List.range 48).foldl (fun acc _ => shaExtendStep acc) ws

/-- One compression round; the state is `[a, b, c, d, e, f, g, h]`. -/
def shaRound (st : List Nat) (kw : Nat × Nat) : List Nat :=
  match st with
  | [a, b, c, d, e, f, g, h] =>
    let t1 := u32 (h + bigSigma1 e + shaCh e f g + kw.1 + kw.2)
    let t2 := u32 (bigSigma0 a + shaMaj a b c)
    [u32 (t1 + t2), a, b, c, u32 (d + t1), e, f, g]
  | _ => st

/-- Compress one 64-byte block into the hash state. -/
def shaCompress (h : List Nat) (block : List Nat) : List Nat :=
  let ws := shaSchedule block
  let st := (shaK.zip ws).foldl shaRound h
  List.zipWith (fun a b => u32 (a + b)) h st

/-- Big-endian 4-byte words from a byte list. -/
def bytesToWords : List Nat → List Nat
  | b0 :: b1 :: b2 :: b3 :: rest => (((b0 * 256 + b1) * 256 + b2) * 256 + b3) :: bytesToWords rest
  | _ => []

/-- Split into 64-byte chunks (structural, via an accumulator holding the
current chunk reversed). -/
def chunksAux : List Nat → List Nat → List (List Nat)
  | [], acc => if acc.isEmpty then [] else [acc.reverse]
  | b :: rest, acc =>
    if acc.length == 63 then (acc.reverse ++ [b]) :: chunksAux rest []
    else chunksAux rest (b :: acc)

/-- Split into 64-byte chunks. -/
def chunksOf64 (l : List Nat) : List (List Nat) := chunksAux l []

/-- The 8-byte big-endian encoding of `n`. -/
def lenBytes8 (n : Nat) : List Nat :=
  [(n >>> 56) % 256, (n >>> 48) % 256, (n >>> 40) % 256, (n >>> 32) % 256,
   (n >>> 24) % 256, (n >>> 16) % 256, (n >>> 8) % 256, n % 256]

/-- SHA-256 padding. -/
def shaPad (msg : List Nat) : List Nat :=
  let z := (120 - (msg.length + 1) % 64) % 64
  msg ++ [0x80] ++ List.replicate z 0 ++ lenBytes8 (8 * msg.length)

def hexDigit (n : Nat) : Char := if n < 10 then Char.ofNat (48 + n) else Char.ofNat (87 + n)

def hex8 (n : Nat) : List Char :=
  [hexDigit ((n >>> 28) % 16), hexDigit ((n >>> 24) % 16), hexDigit ((n >>> 20) % 16),
   hexDigit ((n >>> 16) % 16), hexDigit ((n >>> 12) % 16), hexDigit ((n >>> 8) % 16),
   hexDigit ((n >>> 4) % 16), hexDigit (n % 16)]

/-- `hashlib.sha256(bytes).hexdigest()`. -/
def sha256Hex (msg : List Nat) : String :=
  let final := ((chunksOf64 (shaPad msg)).map bytesToWords).foldl shaCompress shaH0
  ⟨(final.map hex8).flatten⟩

/-- UTF-8 encoding of one character. -/
def utf8Char (c : Char) : List Nat :=
  let n := c.toNat
  if n < 0x80 then [n]
  else if n < 0x800 then [0xC0 ||| (n >>> 6), 0x80 ||| (n &&& 0x3F)]
  else if n < 0x10000 then
    [0xE0 ||| (n >>> 12), 0x80 ||| ((n >>> 6) &&& 0x3F), 0x80 ||| (n &&& 0x3F)]
  else
    [0xF0 ||| (n >>> 18), 0x80 ||| ((n >>> 12) &&& 0x3F),
     0x80 ||| ((n >>> 6) &&& 0x3F), 0x80 ||| (n &&& 0x3F)]

/-- `s.encode("utf-8")`. -/
def utf8Bytes (s : String) : List Nat := (s.data.map utf8Char).flatten

/-! ## Schemas (`app/schemas.py`) -/

structure InsertReturnRequest where
  product_name : String
  product_category : Option String
  store_name : String
  city : Option String
  country : Option String
  purchase_date : Date
  return_date : Date
  reason_raw : String
  price : Q
  currency : String
  discount_pct : Option Q
deriving DecidableEq

structure InsertReturnResponse where
  return_id : Nat
  product_name : String
  store_name : String
  price : Q
  currency : String
  message : String
deriving DecidableEq

structure RetrievalQuery where
  query : String
  top_k : Nat := 5
deriving DecidableEq

/-- `RetrievalResult`: `content` plus the metadata dict (fixed keys). -/
structure RetrievalResult where
  content : String
  metaProduct : String
  metaStore : String
  metaPrice : Q
  metaCurrency : String
  metaReturnDate : String
deriving DecidableEq

structure ReportRequest where
  product_name : Option String
  start_date : Option Date
  end_date : Option Date
  generate_excel : Bool := false
deriving DecidableEq

structure ReportSummary where
  total_returns : Nat
  total_loss : Q
  trend : String
  insight : String
  excel_path : Option String
deriving DecidableEq

structure ForecastRequest where
  target : String
  horizon_days : Nat := 30
deriving DecidableEq

structure ForecastPoint where
  date : Date
  predicted_value : Q
deriving DecidableEq

structure ForecastResponse where
  target : String
  horizon_days : Nat
  predictions : List ForecastPoint
  model_used : String
  metric : String
  metric_value : Q
deriving DecidableEq

/-- The required fields that are `None`, in declaration order (pydantic
reports every failing field of a validation error). -/
def noneRequired (p : Pending) : List String :=
  (if p.product_name = none then ["product_name"] else []) ++
  (if p.store_name = none then ["store_name"] else []) ++
  (if p.purchase_date = none then ["purchase_date"] else []) ++
  (if p.return_date = none then ["return_date"] else []) ++
  (if p.reason_raw = none then ["reason_raw"] else []) ++
  (if p.price = none then ["price"] else []) ++
  (if p.currency = none then ["currency"] else [])

/-- The message of a pydantic `ValidationError` (a `ValueError` subclass)
naming the offending fields. -/
def validationMsg (p : Pending) : String :=
  "validation error for InsertReturnRequest: "
    ++ String.intercalate ", " (noneRequired p) ++ ": none is not an allowed value"

/-- `InsertReturnRequest(**state.pending_return)`: pydantic rejects `None`
for every required (non-`Optional`) field and raises a `ValidationError`. -/
def mkInsertReturnRequest (p : Pending) : Except PyErr InsertReturnRequest :=
  match p.product_name, p.store_name, p.purchase_date, p.return_date,
      p.reason_raw, p.price, p.currency with
  | some pn, some sn, some pd, some rd, some rr, some pr, some cur =>
    .ok ⟨pn, p.product_category, sn, p.city, p.country, pd, rd, rr, pr, cur, p.discount_pct⟩
  | _, _, _, _, _, _, _ => .error (.valueError (validationMsg p))

/-! ## Record store (`app/db/models.py`, table `returns`) -/

/-- A persisted row of the `returns` table. -/
structure Row where
  id : Nat
  product_name : String
  product_category : Option String
  store_name : String
  city : Option String
  country : Option String
  purchase_date : Date
  return_date : Date
  reason_raw : String
  price : Q
  currency : String
  discount_pct : Option Q
  dedupe_key : String
deriving DecidableEq

/-! ## `RetrievalAgent` (`app/agents/retrieval_agent.py`) -/

/-- The pre-hash fingerprint string
`f"{product_name}|{store_name}|{purchase_date}|{price}|{currency}"`. -/
def rawKey (r : InsertReturnRequest) : String :=
  r.product_name ++ "|" ++ r.store_name ++ "|" ++ isoDate r.purchase_date ++ "|"
    ++ pyFloatRepr r.price ++ "|" ++ r.currency

/-- `RetrievalAgent._generate_dedupe_key`. -/
def generateDedupeKey (r : InsertReturnRequest) : String := sha256Hex (utf8Bytes (rawKey r))

def duplicateMsg : String :=
  "Duplicate return detected. This item appears to have already been returned."

/-- `RetrievalAgent.insert_return`.  The unique constraint `uq_dedupe_key`
makes `commit` raise `IntegrityError` exactly when the key already exists;
the rollback leaves the table unchanged, so the resulting table is returned
in both outcomes. -/
def insertReturn (store : List Row) (req : InsertReturnRequest) :
    Except PyErr InsertReturnResponse × List Row :=
  let key := generateDedupeKey req
  if store.any (fun row => row.dedupe_key == key) then
    (.error (.valueError duplicateMsg), store)
  else
    let row : Row :=
      ⟨store.length + 1, req.product_name, req.product_category, req.store_name,
        req.city, req.country, req.purchase_date, req.return_date, req.reason_raw,
        req.price, req.currency, req.discount_pct, key⟩
    (.ok ⟨row.id, row.product_name, row.store_name, row.price, row.currency,
      "Return successfully recorded."⟩, store ++ [row])

/-! ## `ForecastingAgent` (`app/agents/forecasting_agent.py`) -/

/-- Insert into a list sorted by a `Nat` key (stable). -/
def insertByKey {α : Type} (key : α → Nat) (x : α) : List α → List α
  | [] => [x]
  | y :: ys => if key x ≤ key y then x :: y :: ys else y :: insertByKey key x ys

/-- Insertion sort by a `Nat` key (stable; models the ascending sorts of
`groupby` / `sort_values`). -/
def sortByKey {α : Type} (key : α → Nat) : List α → List α
  | [] => []
  | x :: xs => insertByKey key x (sortByKey key xs)

/-- `ForecastingAgent._load_daily_series`: the distinct `return_date`s in
ascending order, each with the number of rows bearing it. -/
def loadDailySeries (store : List Row) : List (Date × Nat) :=
  if store.isEmpty then []
  else
    let dates := store.map (fun r => r.return_date)
    (sortByKey Date.toDays dates.dedup).map
      (fun d => (d, (dates.filter (fun x => x == d)).length))

/-- `df["date"].max()` — maximum by chronological order, first element as
seed (ties keep the earlier element). -/
def dateMaxFrom (d0 : Date) (l : List Date) : Date :=
  l.foldl (fun a x => if a.toDays < x.toDays then x else a) d0

def emptySeriesMsg : String := "Not enough data to generate forecast."

/-- `ForecastingAgent.forecast`. -/
def forecast (store : List Row) (req : ForecastRequest) : Except PyErr ForecastResponse :=
  let df := loadDailySeries store
  match df with
  | [] => .error (.valueError emptySeriesMsg)
  | p :: ps =>
    let df := p :: ps
    let window := min 7 df.length
    let tailw := df.drop (df.length - window)
    let avg : Q := (qsum (tailw.map (fun x => Q.ofNat x.2))).div (Q.ofNat window)
    let lastDate := dateMaxFrom p.1 (ps.map (fun x => x.1))
    let predictions := (List.range req.horizon_days).map
      (fun i => ForecastPoint.mk (lastDate.addDays (i + 1)) avg)
    let mae : Q := (qsum (tailw.map (fun x => ((Q.ofNat x.2).sub avg).qabs))).div (Q.ofNat window)
    .ok ⟨req.target, req.horizon_days, predictions, "7-day moving average", "MAE", mae⟩

/-! ## `ReportAgent` (`app/agents/report_agent.py`) -/

/-- `_resolve_date_range`: default window is the trailing 14 days. -/
def resolveDateRange (today : Date) (s e : Option Date) : Date × Date :=
  let e := e.getD today
  let s := s.getD (e.subDays 13)
  (s, e)

/-- The `ilike(f"%{product_name}%")` filter: case-insensitive containment. -/
def ilikeContains (pat s : String) : Bool := pyIn (pyLower pat) (pyLower s)

/-- `_aggregate_window`: count and price sum of rows whose `return_date`
lies in the inclusive window, optionally filtered on the product name
(the filter is applied only when `product_name` is truthy). -/
def aggregateWindow (store : List Row) (startD endD : Date) (pn : Option String) :
    Nat × Q :=
  let rows := store.filter (fun r =>
    startD.toDays ≤ r.return_date.toDays && r.return_date.toDays ≤ endD.toDays &&
      (match pn with
       | none => true
       | some f => if f.isEmpty then true else ilikeContains f r.product_name))
  (rows.length, qsum (rows.map (fun r => r.price)))

/-- `_compute_trend`. -/
def computeTrend (current previous : Nat) : String :=
  if previous = 0 ∧ current = 0 then "flat"
  else if previous = 0 ∧ 0 < current then "increasing"
  else if previous < current then "increasing"
  else if current < previous then "decreasing"
  else "flat"

/-- `"{:.2f}"` formatting of an exact decimal (round to even at half,
matching CPython on the decimals reachable here). -/
def roundHalfEven (a : Q) : Int :=
  let q0 := a.num.fdiv (a.den : Int)
  let twice := 2 * (a.num - q0 * (a.den : Int))
  if twice < (a.den : Int) then q0
  else if (a.den : Int) < twice then q0 + 1
  else if q0 % 2 = 0 then q0 else q0 + 1

def format2f (q : Q) : String :=
  let n : Int := roundHalfEven (q.mul (Q.ofNat 100))
  let sign := if n < 0 then "-" else ""
  let m := n.natAbs
  sign ++ toString (m / 100) ++ "." ++ pad2 (m % 100)

/-- `_build_insight`. -/
def buildInsight (pn : Option String) (startD endD : Date) (totalReturns : Nat)
    (totalLoss : Q) (prevReturns : Nat) (prevLoss : Q) (trend : String) : String :=
  let scope := match pn with
    | none => ""
    | some f => if f.isEmpty then "" else "for '" ++ f ++ "' "
  let period := isoDate startD ++ " to " ++ isoDate endD
  if trend = "increasing" then
    "Returns " ++ scope ++ "are increasing in " ++ period ++ " ("
      ++ toString totalReturns ++ " vs " ++ toString prevReturns
      ++ " in the previous period). Estimated loss is " ++ format2f totalLoss
      ++ " vs " ++ format2f prevLoss ++ " previously. "
      ++ "Consider checking store handling, product batch quality, and common defect reasons."
  else if trend = "decreasing" then
    "Returns " ++ scope ++ "are decreasing in " ++ period ++ " ("
      ++ toString totalReturns ++ " vs " ++ toString prevReturns
      ++ " previously). Estimated loss is " ++ format2f totalLoss
      ++ " vs " ++ format2f prevLoss ++ ". "
      ++ "This suggests recent mitigations may be working."
  else
    "Returns " ++ scope ++ "are stable in " ++ period ++ " ("
      ++ toString totalReturns ++ " vs " ++ toString prevReturns
      ++ " previously). Estimated loss is " ++ format2f totalLoss
      ++ " vs " ++ format2f prevLoss ++ ". "
      ++ "Monitor for emerging spikes in specific stores/products."

/-- `str.replace(" ", "_")`. -/
def underscoreSpaces (s : String) : String :=
  ⟨s.data.map (fun c => if c == ' ' then '_' else c)⟩

/-- `_write_excel` — the returned artifact path (`ts` models
`datetime.now().strftime("%Y%m%d_%H%M%S")`; the file write itself is an
unmodelled side effect). -/
def excelPath (pn : Option String) (ts : String) : String :=
  let tag := underscoreSpaces (match pn with
    | none => "all"
    | some f => if f.isEmpty then "all" else f)
  "reports/returns_report_" ++ tag ++ "_" ++ ts ++ ".xlsx"

/-- `ReportAgent.generate_report`. -/
def generateReport (today : Date) (ts : String) (store : List Row)
    (request : ReportRequest) : ReportSummary :=
  let (startD, endD) := resolveDateRange today request.start_date request.end_date
  let (totalReturns, totalLoss) := aggregateWindow store startD endD request.product_name
  let windowDays := (endD.toDays - startD.toDays) + 1
  let prevEnd := startD.subDays 1
  let prevStart := prevEnd.subDays (windowDays - 1)
  let (prevReturns, prevLoss) := aggregateWindow store prevStart prevEnd request.product_name
  let trend := computeTrend totalReturns prevReturns
  let insight := buildInsight request.product_name startD endD totalReturns totalLoss
    prevReturns prevLoss trend
  let path := if request.generate_excel then some (excelPath request.product_name ts) else none
  ⟨totalReturns, totalLoss, trend, insight, path⟩

/-! ## `RAGRetriever` (`app/rag/retrieve.py`)

The sentence-transformer embedding is the parameter `emb`; the stored faiss
index is the list of embedded vectors. -/

structure RagState where
  index : Option (List (List Q)) := none
  records : List Row := []
deriving DecidableEq

/-- The composite text embedded for a record. -/
def ragText (r : Row) : String :=
  "Product: " ++ r.product_name ++ ". Store: " ++ r.store_name ++ ". Reason: "
    ++ r.reason_raw ++ ". Price: " ++ pyFloatRepr r.price ++ " " ++ r.currency ++ "."

/-- `RAGRetriever.build_index`: `records` is always replaced; with no rows
the method returns before touching `index`. -/
def buildIndex (emb : String → List Q) (store : List Row) (st : RagState) : RagState :=
  let texts := store.map ragText
  if texts.isEmpty then { st with records := store }
  else { records := store, index := some (texts.map emb) }

/-- Squared L2 distance (faiss `IndexFlatL2` metric). -/
def sqL2 (a b : List Q) : Q := qsum ((a.zip b).map (fun p => (p.1.sub p.2).mul (p.1.sub p.2)))

/-- Insert into a result list ordered by (distance, index). -/
def insertScored (x : Q × Nat) : List (Q × Nat) → List (Q × Nat)
  | [] => [x]
  | y :: ys =>
    if Q.blt x.1 y.1 || (x.1 == y.1 && decide (x.2 ≤ y.2)) then x :: y :: ys
    else y :: insertScored x ys

def sortScored : List (Q × Nat) → List (Q × Nat)
  | [] => []
  | x :: xs => insertScored x (sortScored xs)

/-- `index.search(query_vec, k)` — the ids of the `k` nearest stored
vectors in ascending distance (ties by insertion order), padded with `-1`
when `k` exceeds the number of stored vectors. -/
def searchIndex (vecs : List (List Q)) (q : List Q) (k : Nat) : List Int :=
  let scored := (vecs.map (sqL2 q)).zip (List.range vecs.length)
  let ids := ((sortScored scored).take k).map (fun x => (x.2 : Int))
  ids ++ List.replicate (k - vecs.length) (-1)

/-- Python list indexing `l[i]`, with negative wrap-around. -/
def pyListGet {α : Type} (l : List α) (i : Int) : Except PyErr α :=
  if h : 0 ≤ i ∧ i.toNat < l.length then .ok (l.get ⟨i.toNat, h.2⟩)
  else if h2 : i < 0 ∧ 0 ≤ i + l.length ∧ (i + l.length).toNat < l.length then
    .ok (l.get ⟨(i + l.length).toNat, h2.2.2⟩)
  else .error (.indexError "list index out of range")

def notBuiltMsg : String := "RAG index not built. Call build_index() first."

/-- `RAGRetriever.retrieve`. -/
def retrieve (emb : String → List Q) (st : RagState) (q : RetrievalQuery) :
    Except PyErr (List RetrievalResult) :=
  match st.index with
  | none => .error (.runtimeError notBuiltMsg)
  | some vecs =>
    let ids := searchIndex vecs (emb q.query) q.top_k
    ids.mapM (fun idx => do
      let record ← pyListGet st.records idx
      pure (RetrievalResult.mk record.reason_raw record.product_name record.store_name
        record.price record.currency (isoDate record.return_date)))

/-! ## `Coordinator` (`app/chat_coordinator.py`)

One turn maps `(text, state, env)` to `(reply-or-exception, state, env)`.
The Python coordinator mutates `state` in place, so when a collaborator
raises, the caller is left holding the state as mutated up to the raise
point; the returned `ConversationState` models exactly that. -/

/-- The database plus the retriever's in-memory index state. -/
structure Env where
  store : List Row := []
  rag : RagState := {}
deriving DecidableEq

/-- `Coordinator._classify_intent`: ordered first-match keyword rules over
the lowercased text. -/
def classifyIntent (text : String) : String :=
  let t := pyLower text
  if pyIn "forecast" t || pyIn "predict" t || pyIn "next" t then "forecast"
  else if pyIn "report" t || pyIn "analysis" t || pyIn "how many" t
      || pyIn "trend" t || pyIn "excel" t then "analytics"
  else if pyIn "return" t || pyIn "refund" t then "insert_return"
  else "rag"

/-- The confirmation reply of a successful submission. -/
def confirmMsg (resp : InsertReturnResponse) : String :=
  "✅ Return recorded: " ++ resp.product_name ++ " from " ++ resp.store_name
    ++ " (" ++ pyFloatRepr resp.price ++ " " ++ resp.currency ++ "). Return ID: "
    ++ toString resp.return_id

/-- All eleven pending slots reset to `None`. -/
def clearedPending : Pending := {}

/-- `Coordinator._handle_insert_flow`. -/
def handleInsertFlow (today : Date) (text : String) (s : ConversationState)
    (store : List Row) : Except PyErr String × ConversationState × List Row :=
  match extractFields today text s.pending with
  | .error (e, p') => (.error e, { s with pending := p' }, store)
  | .ok p' =>
    let missing := missingFields p'
    if !missing.isEmpty then (.ok (askNext missing), { s with pending := p' }, store)
    else
      match mkInsertReturnRequest p' with
      | .error (.valueError msg) =>
        (.ok msg, ⟨clearedPending, none⟩, store)
      | .error e => (.error e, { s with pending := p' }, store)
      | .ok req =>
        match insertReturn store req with
        | (.ok resp, store') => (.ok (confirmMsg resp), ⟨clearedPending, none⟩, store')
        | (.error (.valueError msg), store') => (.ok msg, ⟨clearedPending, none⟩, store')
        | (.error e, store') => (.error e, { s with pending := p' }, store')

/-- `Coordinator._handle_analytics` (default request, Excel on). -/
def handleAnalytics (today : Date) (ts : String) (store : List Row)
    (s : ConversationState) : Except PyErr String × ConversationState :=
  let resp := generateReport today ts store ⟨none, none, none, true⟩
  (.ok ("📊 Returns: " ++ toString resp.total_returns ++ "\nLoss: "
      ++ pyFloatRepr resp.total_loss ++ "\nTrend: " ++ resp.trend ++ "\n" ++ resp.insight),
    { s with mode := none })

/-- `Coordinator._handle_forecast` (horizon 14); a forecasting failure
propagates before the mode reset. -/
def handleForecast (store : List Row) (s : ConversationState) :
    Except PyErr String × ConversationState :=
  match forecast store ⟨"daily_return_volume", 14⟩ with
  | .error e => (.error e, s)
  | .ok resp =>
    (.ok ("📈 Forecast (" ++ resp.model_used ++ ")\nMAE: " ++ pyFloatRepr resp.metric_value),
      { s with mode := none })

/-- `Coordinator._handle_rag`: rebuild the index, then retrieve (top 3); a
retrieval failure propagates after the rebuild but before the mode reset. -/
def handleRag (emb : String → List Q) (store : List Row) (rag : RagState)
    (text : String) (s : ConversationState) :
    Except PyErr String × ConversationState × RagState :=
  let rag' := buildIndex emb store rag
  match retrieve emb rag' ⟨text, 3⟩ with
  | .error e => (.error e, s, rag')
  | .ok res =>
    let s' := { s with mode := none }
    if res.isEmpty then (.ok "No relevant returns found.", s', rag')
    else (.ok (String.intercalate "\n" (res.map (fun r => "- " ++ r.content))), s', rag')

/-- `Coordinator.handle_message`: stay in the collection flow while
`mode == "insert_return"`, otherwise classify, set the mode and dispatch. -/
def handleMessage (emb : String → List Q) (today : Date) (ts : String)
    (userText : String) (s : ConversationState) (env : Env) :
    Except PyErr String × ConversationState × Env :=
  let text := pyStrip userText
  if s.mode = some "insert_return" then
    match handleInsertFlow today text s env.store with
    | (r, s', store') => (r, s', { env with store := store' })
  else
    let intent := classifyIntent text
    let s1 := { s with mode := some intent }
    if intent = "forecast" then
      match handleForecast env.store s1 with
      | (r, s') => (r, s', env)
    else if intent = "analytics" then
      match handleAnalytics today ts env.store s1 with
      | (r, s') => (r, s', env)
    else if intent = "insert_return" then
      match handleInsertFlow today text s1 env.store with
      | (r, s', store') => (r, s', { env with store := store' })
    else
      match handleRag emb env.store env.rag text s1 with
      | (r, s', rag') => (r, s', { env with rag := rag' })

/-- Run a list of user messages through successive coordinator turns,
collecting the replies. -/
def runTurns (emb : String → List Q) (today : Date) (ts : String) :
    List String → ConversationState → Env →
    List (Except PyErr String) × ConversationState × Env
  | [], s, env => ([], s, env)
  | msg :: rest, s, env =>
    match handleMessage emb today ts msg s env with
    | (r, s', env') =>
      match runTurns emb today ts rest s' env' with
      | (rs, s'', env'') => (r :: rs, s'', env'')

/-! ## Support definitions for the verified properties -/

/-- The pending dict after a pass, whether the pass completed or raised
(the raise point already carries the earlier blocks' mutations). -/
def extractResult : Except (PyErr × Pending) Pending → Pending
  | .ok p => p
  | .error (_, p) => p

/-- The pending dict after `_extract_fields`, completed or interrupted. -/
def afterExtract (today : Date) (text : String) (p : Pending) : Pending :=
  extractResult (extractFields today text p)

/-- The natural-key tuple the fingerprint is claimed to depend on. -/
def keyTuple (r : InsertReturnRequest) : String × String × Date × Q × String :=
  (r.product_name, r.store_name, r.purchase_date, r.price, r.currency)

/-- Spec-side: the daily counts of the history, as rationals. -/
def seriesCounts (store : List Row) : List Q :=
  (loadDailySeries store).map (fun x => Q.ofNat x.2)

/-- Spec-side: the trailing window of size `min 7 (length)`. -/
def trailingWindow (l : List Q) : List Q := l.drop (l.length - min 7 l.length)

/-- Spec-side: arithmetic mean. -/
def meanQ (l : List Q) : Q := (qsum l).div (Q.ofNat l.length)

/-- Spec-side: mean absolute error of the constant `c` against `l`. -/
def maeConst (l : List Q) (c : Q) : Q := (qsum (l.map (fun v => (v.sub c).qabs))).div (Q.ofNat l.length)

def forecastKeywords : List String := ["forecast", "predict", "next"]

def analyticsKeywords : List String := ["report", "analysis", "how many", "trend", "excel"]

def returnKeywords : List String := ["return", "refund"]

/-- Spec-side: some keyword of the list occurs in `t`. -/
def hasAnyKeyword (kws : List String) (t : String) : Bool := kws.any (fun k => pyIn k t)

/-- A concrete embedding function for concrete scenarios. -/
def embZero : String → List Q := fun _ => [⟨0, 1⟩]

def today0 : Date := ⟨2025, 6, 1⟩

def ts0 : String := "20250601_120000"

/-- The five-message dialogue of the completion-flow property. -/
def dialogueC1 : List String :=
  ["I want to return my iPhone", "Target", "2025-01-01", "not working", "50 USD"]

/-- The coordinator run over that dialogue from a fresh session and an
empty store. -/
def traceC1 : List (Except PyErr String) × ConversationState × Env :=
  runTurns embZero today0 ts0 dialogueC1 {} {}

/-- A history with five rows on one `return_date` (daily count 5). -/
def fiveStore : List Row :=
  [⟨1, "iPhone", none, "Target", none, none, ⟨2025, 1, 1⟩, ⟨2025, 1, 10⟩,
    "not working", 50, "USD", none, "k1"⟩,
   ⟨2, "iPad", none, "Target", none, none, ⟨2025, 1, 2⟩, ⟨2025, 1, 10⟩,
    "broken", 30, "USD", none, "k2"⟩,
   ⟨3, "Apple TV", none, "BestBuy", none, none, ⟨2025, 1, 3⟩, ⟨2025, 1, 10⟩,
    "defective", 20, "USD", none, "k3"⟩,
   ⟨4, "MacBook", none, "Costco", none, none, ⟨2025, 1, 4⟩, ⟨2025, 1, 10⟩,
    "not working", 900, "USD", none, "k4"⟩,
   ⟨5, "AirPods", none, "Target", none, none, ⟨2025, 1, 5⟩, ⟨2025, 1, 10⟩,
    "broken", 120, "USD", none, "k5"⟩]

/-- A pending dict reachable from a fresh collection flow via the turns
`"iphone"`, `"Target"`, then `"0 USD"`: price is `0.0` (falsy), currency is
already filled. -/
def overwritePending : Pending :=
  { product_name := some "iphone", store_name := some "Target",
    price := some 0, currency := some "USD" }

/-- Session state mid-collection with only the price/currency pair
outstanding. -/
def priceZeroState : ConversationState :=
  ⟨{ product_name := some "iPhone", store_name := some "Target",
     purchase_date := some ⟨2025, 1, 1⟩, reason_raw := some "not working" },
   some "insert_return"⟩

/-- The pending dict after `priceZeroState` hears `"0 USD"`. -/
def priceZeroExtracted : Pending :=
  { product_name := some "iPhone", store_name := some "Target",
    purchase_date := some ⟨2025, 1, 1⟩, reason_raw := some "not working",
    price := some 0, currency := some "USD" }

/-- A fully-populated insert request. -/
def reqA : InsertReturnRequest :=
  ⟨"iPhone", some "Electronics", "Target", some "Taipei", some "Taiwan",
    ⟨2025, 1, 1⟩, ⟨2025, 1, 10⟩, "not working", 50, "USD", some 10⟩

/-- Same natural-key tuple as `reqA`, every other field different. -/
def reqB : InsertReturnRequest :=
  ⟨"iPhone", none, "Target", some "Berlin", none,
    ⟨2025, 1, 1⟩, ⟨2025, 2, 2⟩, "changed my mind", 50, "USD", none⟩

/-- `reqA` with the product name lower-cased. -/
def reqLower : InsertReturnRequest :=
  ⟨"iphone", some "Electronics", "Target", some "Taipei", some "Taiwan",
    ⟨2025, 1, 1⟩, ⟨2025, 1, 10⟩, "not working", 50, "USD", some 10⟩

/-- `reqA` with trailing whitespace on the product name. -/
def reqSpace : InsertReturnRequest :=
  ⟨"iPhone ", some "Electronics", "Target", some "Taipei", some "Taiwan",
    ⟨2025, 1, 1⟩, ⟨2025, 1, 10⟩, "not working", 50, "USD", some 10⟩

/-- A pending dict with every slot truthy. -/
def filledPending : Pending :=
  { product_name := some "iPhone", product_category := some "Electronics",
    store_name := some "Target", city := some "Taipei", country := some "Taiwan",
    purchase_date := some ⟨2025, 1, 1⟩, return_date := some ⟨2025, 1, 10⟩,
    reason_raw := some "not working", price := some 50, currency := some "USD",
    discount_pct := some 10 }

/-! ## General lemmas -/

/-- The intent classifier as the ordered first-match rule table. -/
theorem classifyIntent_orderedRules (text : String) : classifyIntent text =
    (if hasAnyKeyword forecastKeywords (pyLower text) then "forecast"
     else if hasAnyKeyword analyticsKeywords (pyLower text) then "analytics"
     else if hasAnyKeyword returnKeywords (pyLower text) then "insert_return" else "rag") := by
  simp [classifyIntent, hasAnyKeyword, forecastKeywords, analyticsKeywords, returnKeywords,
    List.any_cons, List.any_nil, Bool.or_assoc, Bool.or_false]

theorem productPass_shape (text : String) (p : Pending) :
    productPass text p = p ∨ ∃ v, productPass text p = { p with product_name := some v } := by
  unfold productPass
  split
  · exact Or.inl rfl
  · split
    · exact Or.inr ⟨_, rfl⟩
    · split
      · exact Or.inr ⟨_, rfl⟩
      · exact Or.inl rfl

theorem storePass_shape (text : String) (p : Pending) :
    storePass text p = p ∨ ∃ v, storePass text p = { p with store_name := some v } := by
  unfold storePass
  try dsimp only
  split
  · exact Or.inl rfl
  · split
    · exact Or.inr ⟨_, rfl⟩
    · split
      · exact Or.inr ⟨_, rfl⟩
      · exact Or.inl rfl

theorem reasonPass_shape (text : String) (p : Pending) :
    reasonPass text p = p ∨ ∃ v, reasonPass text p = { p with reason_raw := some v } := by
  unfold reasonPass
  try dsimp only
  split
  · exact Or.inl rfl
  · split
    · exact Or.inr ⟨_, rfl⟩
    · exact Or.inl rfl

theorem pricePass_shape (text : String) (p : Pending) :
    pricePass text p = p ∨
    ∃ q c, pricePass text p = { p with price := some q, currency := some c } := by
  unfold pricePass
  split
  · exact Or.inl rfl
  · split
    · exact Or.inr ⟨_, _, rfl⟩
    · exact Or.inl rfl

theorem purchasePass_shape (today : Date) (text : String) (p : Pending) :
    purchasePass today text p = .ok p ∨
    (∃ d, purchasePass today text p = .ok { p with purchase_date := some d }) ∨
    (∃ e, purchasePass today text p = .error e) := by
  unfold purchasePass
  try dsimp only
  split
  · exact Or.inl rfl
  · split
    · exact Or.inr (Or.inl ⟨_, rfl⟩)
    · split
      · exact Or.inl rfl
      · split
        · exact Or.inr (Or.inl ⟨_, rfl⟩)
        · exact Or.inr (Or.inr ⟨_, rfl⟩)

theorem returnDatePass_shape (today : Date) (text : String) (p : Pending) :
    returnDatePass today text p = p ∨
    returnDatePass today text p = { p with return_date := some today } := by
  unfold returnDatePass
  try dsimp only
  split
  · exact Or.inl rfl
  · split
    · exact Or.inr rfl
    · exact Or.inl rfl

theorem productPass_truthy (text : String) (p : Pending)
    (h : truthyStr p.product_name = true) : productPass text p = p := by
  unfold productPass
  rw [if_pos h]

theorem storePass_truthy (text : String) (p : Pending)
    (h : truthyStr p.store_name = true) : storePass text p = p := by
  unfold storePass
  rw [if_pos h]

theorem reasonPass_truthy (text : String) (p : Pending)
    (h : truthyStr p.reason_raw = true) : reasonPass text p = p := by
  unfold reasonPass
  rw [if_pos h]

theorem pricePass_truthy (text : String) (p : Pending)
    (hp : truthyRat p.price = true) (hc : truthyStr p.currency = true) :
    pricePass text p = p := by
  unfold pricePass
  rw [if_pos (by rw [hp, hc]; rfl)]

theorem purchasePass_truthy (today : Date) (text : String) (p : Pending)
    (h : truthyDate p.purchase_date = true) : purchasePass today text p = .ok p := by
  unfold purchasePass
  rw [if_pos h]

theorem returnDatePass_truthy (today : Date) (text : String) (p : Pending)
    (h : truthyDate p.return_date = true) : returnDatePass today text p = p := by
  unfold returnDatePass
  rw [if_pos h]

theorem productPass_keeps (text : String) (p : Pending) :
    (productPass text p).store_name = p.store_name ∧
    (productPass text p).reason_raw = p.reason_raw ∧
    (productPass text p).price = p.price ∧
    (productPass text p).currency = p.currency ∧
    (productPass text p).purchase_date = p.purchase_date ∧
    (productPass text p).return_date = p.return_date ∧
    (productPass text p).product_category = p.product_category ∧
    (productPass text p).city = p.city ∧
    (productPass text p).country = p.country ∧
    (productPass text p).discount_pct = p.discount_pct := by
  rcases productPass_shape text p with h | ⟨v, h⟩ <;> rw [h] <;>
    exact ⟨rfl, rfl, rfl, rfl, rfl, rfl, rfl, rfl, rfl, rfl⟩

theorem storePass_keeps (text : String) (p : Pending) :
    (storePass text p).product_name = p.product_name ∧
    (storePass text p).reason_raw = p.reason_raw ∧
    (storePass text p).price = p.price ∧
    (storePass text p).currency = p.currency ∧
    (storePass text p).purchase_date = p.purchase_date ∧
    (storePass text p).return_date = p.return_date ∧
    (storePass text p).product_category = p.product_category ∧
    (storePass text p).city = p.city ∧
    (storePass text p).country = p.country ∧
    (storePass text p).discount_pct = p.discount_pct := by
  rcases storePass_shape text p with h | ⟨v, h⟩ <;> rw [h] <;>
    exact ⟨rfl, rfl, rfl, rfl, rfl, rfl, rfl, rfl, rfl, rfl⟩

theorem reasonPass_keeps (text : String) (p : Pending) :
    (reasonPass text p).product_name = p.product_name ∧
    (reasonPass text p).store_name = p.store_name ∧
    (reasonPass text p).price = p.price ∧
    (reasonPass text p).currency = p.currency ∧
    (reasonPass text p).purchase_date = p.purchase_date ∧
    (reasonPass text p).return_date = p.return_date ∧
    (reasonPass text p).product_category = p.product_category ∧
    (reasonPass text p).city = p.city ∧
    (reasonPass text p).country = p.country ∧
    (reasonPass text p).discount_pct = p.discount_pct := by
  rcases reasonPass_shape text p with h | ⟨v, h⟩ <;> rw [h] <;>
    exact ⟨rfl, rfl, rfl, rfl, rfl, rfl, rfl, rfl, rfl, rfl⟩

theorem pricePass_keeps (text : String) (p : Pending) :
    (pricePass text p).product_name = p.product_name ∧
    (pricePass text p).store_name = p.store_name ∧
    (pricePass text p).reason_raw = p.reason_raw ∧
    (pricePass text p).purchase_date = p.purchase_date ∧
    (pricePass text p).return_date = p.return_date ∧
    (pricePass text p).product_category = p.product_category ∧
    (pricePass text p).city = p.city ∧
    (pricePass text p).country = p.country ∧
    (pricePass text p).discount_pct = p.discount_pct := by
  rcases pricePass_shape text p with h | ⟨q, c, h⟩ <;> rw [h] <;>
    exact ⟨rfl, rfl, rfl, rfl, rfl, rfl, rfl, rfl, rfl⟩

theorem returnDatePass_keeps (today : Date) (text : String) (p : Pending) :
    (returnDatePass today text p).product_name = p.product_name ∧
    (returnDatePass today text p).store_name = p.store_name ∧
    (returnDatePass today text p).reason_raw = p.reason_raw ∧
    (returnDatePass today text p).price = p.price ∧
    (returnDatePass today text p).currency = p.currency ∧
    (returnDatePass today text p).purchase_date = p.purchase_date ∧
    (returnDatePass today text p).product_category = p.product_category ∧
    (returnDatePass today text p).city = p.city ∧
    (returnDatePass today text p).country = p.country ∧
    (returnDatePass today text p).discount_pct = p.discount_pct := by
  rcases returnDatePass_shape today text p with h | h <;> rw [h] <;>
    exact ⟨rfl, rfl, rfl, rfl, rfl, rfl, rfl, rfl, rfl, rfl⟩

theorem purchasePass_ok_keeps (today : Date) (text : String) (p p5 : Pending)
    (h : purchasePass today text p = .ok p5) :
    p5.product_name = p.product_name ∧
    p5.store_name = p.store_name ∧
    p5.reason_raw = p.reason_raw ∧
    p5.price = p.price ∧
    p5.currency = p.currency ∧
    p5.return_date = p.return_date ∧
    p5.product_category = p.product_category ∧
    p5.city = p.city ∧
    p5.country = p.country ∧
    p5.discount_pct = p.discount_pct := by
  rcases purchasePass_shape today text p with hk | ⟨d, hk⟩ | ⟨e, hk⟩ <;> rw [hk] at h
  · cases h
    exact ⟨rfl, rfl, rfl, rfl, rfl, rfl, rfl, rfl, rfl, rfl⟩
  · cases h
    exact ⟨rfl, rfl, rfl, rfl, rfl, rfl, rfl, rfl, rfl, rfl⟩
  · cases h

/-- `afterExtract` is `returnDatePass` of the four-block chain when the
purchase block does not raise, and the four-block chain itself when it
does. -/
theorem afterExtract_eq (today : Date) (text : String) (p : Pending) :
    (∃ p5, purchasePass today text
        (pricePass text (reasonPass text (storePass text (productPass text p)))) = .ok p5 ∧
      afterExtract today text p = returnDatePass today text p5) ∨
    afterExtract today text p =
      pricePass text (reasonPass text (storePass text (productPass text p))) := by
  unfold afterExtract extractFields
  cases hpp : purchasePass today text
      (pricePass text (reasonPass text (storePass text (productPass text p)))) with
  | ok p5 => exact Or.inl ⟨p5, rfl, by simp [extractResult, hpp]⟩
  | error e => exact Or.inr (by simp [extractResult, hpp])

theorem mem_insertByKey {α : Type} (key : α → Nat) (x y : α) (l : List α) :
    y ∈ insertByKey key x l ↔ y = x ∨ y ∈ l := by
  induction l with
  | nil => simp [insertByKey]
  | cons a as ih =>
    unfold insertByKey
    split
    · simp [or_comm, or_assoc, or_left_comm]
    · simp [ih]
      tauto

theorem mem_sortByKey {α : Type} (key : α → Nat) (y : α) (l : List α) :
    y ∈ sortByKey key l ↔ y ∈ l := by
  induction l with
  | nil => simp [sortByKey]
  | cons a as ih => simp [sortByKey, mem_insertByKey, ih]

theorem dateMaxFrom_cons (d0 a : Date) (as : List Date) :
    dateMaxFrom d0 (a :: as) =
      dateMaxFrom (if d0.toDays < a.toDays then a else d0) as := rfl

theorem dateMaxFrom_mem (l : List Date) (d0 : Date) :
    dateMaxFrom d0 l = d0 ∨ dateMaxFrom d0 l ∈ l := by
  induction l generalizing d0 with
  | nil => exact Or.inl rfl
  | cons a as ih =>
    rw [dateMaxFrom_cons]
    rcases ih (if d0.toDays < a.toDays then a else d0) with h | h
    · rw [h]
      split
      · exact Or.inr (List.mem_cons_self _ _)
      · exact Or.inl rfl
    · exact Or.inr (List.mem_cons_of_mem _ h)

theorem dateMaxFrom_ge (l : List Date) (d0 : Date) :
    d0.toDays ≤ (dateMaxFrom d0 l).toDays ∧
    ∀ d ∈ l, d.toDays ≤ (dateMaxFrom d0 l).toDays := by
  induction l generalizing d0 with
  | nil => exact ⟨Nat.le_refl _, by simp⟩
  | cons a as ih =>
    rw [dateMaxFrom_cons]
    obtain ⟨h1, h2⟩ := ih (if d0.toDays < a.toDays then a else d0)
    refine ⟨?_, ?_⟩
    · refine Nat.le_trans ?_ h1
      split <;> omega
    · intro d hd
      rcases List.mem_cons.mp hd with rfl | hd
      · refine Nat.le_trans ?_ h1
        split <;> omega
      · exact h2 d hd

theorem loadDailySeries_map_fst (store : List Row) (h : store ≠ []) :
    (loadDailySeries store).map Prod.fst =
      sortByKey Date.toDays (store.map (fun r => r.return_date)).dedup := by
  unfold loadDailySeries
  rw [if_neg (by simpa [List.isEmpty_iff] using h)]
  rw [List.map_map]
  exact List.map_id' _

theorem loadDailySeries_ne_nil (store : List Row) (h : store ≠ []) :
    loadDailySeries store ≠ [] := by
  intro hcon
  obtain ⟨r, rs, rfl⟩ := List.exists_cons_of_ne_nil h
  have hmem : r.return_date ∈ (loadDailySeries (r :: rs)).map Prod.fst := by
    rw [loadDailySeries_map_fst _ (by simp)]
    rw [mem_sortByKey]
    simp
  rw [hcon] at hmem
  simp at hmem

/-- One insert-flow turn either keeps the session mode (a prompt, or a
non-`ValueError` exception) or resets it to none (submission attempted). -/
theorem insertFlow_mode (today : Date) (text : String) (s : ConversationState)
    (store : List Row) :
    (handleInsertFlow today text s store).2.1.mode = s.mode ∨
    (handleInsertFlow today text s store).2.1.mode = none := by
  unfold handleInsertFlow
  cases hx : extractFields today text s.pending with
  | error ep =>
    cases ep
    left
    rfl
  | ok p' =>
    dsimp only
    split
    · left; rfl
    · cases hmk : mkInsertReturnRequest p' with
      | error e =>
        cases e with
        | valueError m => right; rfl
        | runtimeError m => left; rfl
        | indexError m => left; rfl
      | ok req =>
        dsimp only
        rcases hins : insertReturn store req with ⟨r, store'⟩
        cases r with
        | ok resp => right; rfl
        | error e =>
          cases e with
          | valueError m => right; rfl
          | runtimeError m => left; rfl
          | indexError m => left; rfl

/-! ## Claim theorems -/

/-- C1.  The five-message dialogue "I want to return my iPhone" / "Target" /
"2025-01-01" / "not working" / "50 USD" from a fresh session fills the six
required fields one per turn, with the prompt after only `product_name`
asking for the store.  The final turn, however, does **not** complete the
flow: `InsertReturnRequest` requires `return_date` (a non-`Optional`
pydantic field), `_missing_fields` never lists it, so construction raises a
`ValidationError` (a `ValueError`), the coordinator answers with the
validation message instead of a confirmation, no row is inserted, and the
session resets.  This evaluates the code at the claim's failing input. -/
theorem claimC1_return_date_never_collected :
    traceC1.1 = [.ok "Which store did you buy it from?",
      .ok "When did you purchase it? (YYYY-MM-DD or 'last week')",
      .ok "What is the reason for return?",
      .ok "What was the price and currency?",
      .ok "validation error for InsertReturnRequest: return_date: none is not an allowed value"] ∧
    traceC1.2.2.store = [] ∧
    traceC1.2.1 = ⟨{}, none⟩ ∧
    pyIn "iPhone"
      "validation error for InsertReturnRequest: return_date: none is not an allowed value"
      = false ∧
    pyIn "Return recorded"
      "validation error for InsertReturnRequest: return_date: none is not an allowed value"
      = false := by
  refine ⟨by decide, by decide, by decide, by decide, by decide⟩

/-- C2 counterexample.  After `build_index` has run over a store with zero
records, `retrieve` does *not* return an empty result set: the early return
in `build_index` leaves `index = None`, so `retrieve` still raises the
index-not-built `RuntimeError`. -/
theorem claimC2_counterexample :
    retrieve embZero (buildIndex embZero [] {}) ⟨"query", 3⟩ =
      .error (.runtimeError notBuiltMsg) := rfl

/-- C2 (amended).  `retrieve` before any `build_index` fails with the
index-not-built error; `build_index` over a store with zero records leaves
the index unbuilt, so `retrieve` afterwards fails with the same
index-not-built error rather than returning an empty result set. -/
theorem claimC2_empty_rebuild_leaves_index_unbuilt
    (emb : String → List Q) (q : RetrievalQuery) (rs : List Row) :
    retrieve emb ⟨none, rs⟩ q = .error (.runtimeError notBuiltMsg) ∧
    retrieve emb (buildIndex emb [] ⟨none, rs⟩) q = .error (.runtimeError notBuiltMsg) :=
  ⟨rfl, rfl⟩

/-- C6.  Whenever the session mode is the return-collection mode at the
start of a turn, `handle_message` dispatches straight into the
field-extraction flow on the stripped text — intent classification never
runs, whatever the message contains. -/
theorem claimC6_collection_mode_sticky
    (emb : String → List Q) (today : Date) (ts : String) (text : String)
    (s : ConversationState) (env : Env) (h : s.mode = some "insert_return") :
    handleMessage emb today ts text s env =
      (match handleInsertFlow today (pyStrip text) s env.store with
       | (r, s', store') => (r, s', { env with store := store' })) := by
  simp [handleMessage, h]

/-- C6 witness: a mid-collection message containing the forecast keyword
"next" is handled by the insert flow (and, concretely, answers with the
product prompt rather than the forecast template). -/
theorem claimC6_witness :
    handleMessage embZero today0 ts0 "next Tuesday maybe"
        ⟨{}, some "insert_return"⟩ {} =
      (match handleInsertFlow today0 (pyStrip "next Tuesday maybe")
          (⟨{}, some "insert_return"⟩ : ConversationState) ([] : List Row) with
       | (r, s', store') => (r, s', { ({} : Env) with store := store' })) ∧
    (handleMessage embZero today0 ts0 "next Tuesday maybe"
        ⟨{}, some "insert_return"⟩ {}).1
      = .ok "When did you purchase it? (YYYY-MM-DD or 'last week')" :=
  ⟨claimC6_collection_mode_sticky embZero today0 ts0 "next Tuesday maybe"
      ⟨{}, some "insert_return"⟩ {} rfl,
    by decide⟩

/-- C7.  When the mode is not the return-collection mode, the dispatched
intent is classified from the lowercased text by ordered first-match keyword
rules: forecast keywords → forecast, else analytics keywords → analytics,
else return/refund → collection, else retrieval; and the session mode after
such a turn is either reset to none or equals that classified intent. -/
theorem claimC7_intent_rules :
    (∀ text : String,
      (classifyIntent text = "forecast" ↔
        hasAnyKeyword forecastKeywords (pyLower text) = true) ∧
      (classifyIntent text = "analytics" ↔
        (hasAnyKeyword forecastKeywords (pyLower text) = false ∧
         hasAnyKeyword analyticsKeywords (pyLower text) = true)) ∧
      (classifyIntent text = "insert_return" ↔
        (hasAnyKeyword forecastKeywords (pyLower text) = false ∧
         hasAnyKeyword analyticsKeywords (pyLower text) = false ∧
         hasAnyKeyword returnKeywords (pyLower text) = true)) ∧
      (classifyIntent text = "rag" ↔
        (hasAnyKeyword forecastKeywords (pyLower text) = false ∧
         hasAnyKeyword analyticsKeywords (pyLower text) = false ∧
         hasAnyKeyword returnKeywords (pyLower text) = false))) ∧
    (∀ (emb : String → List Q) (today : Date) (ts : String) (text : String)
        (s : ConversationState) (env : Env), s.mode ≠ some "insert_return" →
      (handleMessage emb today ts text s env).2.1.mode = none ∨
      (handleMessage emb today ts text s env).2.1.mode
        = some (classifyIntent (pyStrip text))) := by
  constructor
  · intro text
    rw [classifyIntent_orderedRules]
    cases hf : hasAnyKeyword forecastKeywords (pyLower text) <;>
      cases ha : hasAnyKeyword analyticsKeywords (pyLower text) <;>
        cases hr : hasAnyKeyword returnKeywords (pyLower text) <;> simp
  · intro emb today ts text s env hmode
    unfold handleMessage
    rw [if_neg hmode]
    by_cases h1 : classifyIntent (pyStrip text) = "forecast"
    · rw [if_pos h1]
      unfold handleForecast
      cases hf : forecast env.store ⟨"daily_return_volume", 14⟩ with
      | error e => right; simp [h1]
      | ok resp => left; simp [hf]
    · rw [if_neg h1]
      by_cases h2 : classifyIntent (pyStrip text) = "analytics"
      · rw [if_pos h2]
        unfold handleAnalytics
        left
        simp
      · rw [if_neg h2]
        by_cases h3 : classifyIntent (pyStrip text) = "insert_return"
        · rw [if_pos h3]
          rcases hfe : handleInsertFlow today (pyStrip text)
              { s with mode := some (classifyIntent (pyStrip text)) } env.store
            with ⟨r, s', store'⟩
          have hm := insertFlow_mode today (pyStrip text)
            { s with mode := some (classifyIntent (pyStrip text)) } env.store
          rw [hfe] at hm
          rcases hm with hm | hm
          · right
            simpa using hm
          · left
            simpa using hm
        · rw [if_neg h3]
          unfold handleRag
          cases hr : retrieve emb (buildIndex emb env.store env.rag) ⟨pyStrip text, 3⟩ with
          | error e => right; simp [hr]
          | ok res => cases res <;> left <;> simp [hr]

/-- C7 witness: the classification of a concrete text and a concrete
dispatched turn. -/
theorem claimC7_witness :
    (classifyIntent "how many returns" = "analytics" ↔
      (hasAnyKeyword forecastKeywords (pyLower "how many returns") = false ∧
       hasAnyKeyword analyticsKeywords (pyLower "how many returns") = true)) ∧
    ((handleMessage embZero today0 ts0 "hello there" {} {}).2.1.mode = none ∨
     (handleMessage embZero today0 ts0 "hello there" {} {}).2.1.mode
       = some (classifyIntent (pyStrip "hello there"))) :=
  ⟨(claimC7_intent_rules.1 "how many returns").2.1,
    claimC7_intent_rules.2 embZero today0 ts0 "hello there" {} {} (by decide)⟩

/-- C9.  The fingerprint is a deterministic function of exactly the ordered
tuple (product_name, store_name, purchase_date, price, currency): any two
requests agreeing on the tuple get the same fingerprint whatever their other
fields; and no case or whitespace normalisation is applied — changing only
the case, or only trailing whitespace, of the product name changes the
fingerprint. -/
theorem claimC9_fingerprint_exact_tuple :
    (∀ r1 r2 : InsertReturnRequest, keyTuple r1 = keyTuple r2 →
      generateDedupeKey r1 = generateDedupeKey r2) ∧
    generateDedupeKey reqA ≠ generateDedupeKey reqLower ∧
    generateDedupeKey reqA ≠ generateDedupeKey reqSpace := by
  refine ⟨?_, by decide, by decide⟩
  intro r1 r2 htup
  unfold keyTuple at htup
  obtain ⟨h1, h2, h3, h4, h5⟩ : r1.product_name = r2.product_name ∧
      r1.store_name = r2.store_name ∧ r1.purchase_date = r2.purchase_date ∧
      r1.price = r2.price ∧ r1.currency = r2.currency := by
    simpa [Prod.ext_iff] using htup
  unfold generateDedupeKey rawKey
  rw [h1, h2, h3, h4, h5]

/-- C9 witness: two concrete requests sharing the tuple but differing in
category, city, country, return date, reason and discount get the same
fingerprint. -/
theorem claimC9_witness : generateDedupeKey reqA = generateDedupeKey reqB :=
  claimC9_fingerprint_exact_tuple.1 reqA reqB (by decide)

/-- C3 counterexample.  Field extraction is not purely additive on non-null
fields: from the reachable pending dict with `price = 0.0` (falsy) and
`currency = "USD"` — produced by the turns "iphone", "Target", "0 USD" — the
utterance "50 EUR" overwrites the non-null currency with "EUR" (and the
non-null price with 50.0), because the price/currency guard re-runs whenever
either slot is falsy. -/
theorem claimC3_counterexample :
    overwritePending.currency = some "USD" ∧
    overwritePending.currency ≠ none ∧
    (extractFields today0 "50 EUR" overwritePending).isOk = true ∧
    (afterExtract today0 "50 EUR" overwritePending).currency = some "EUR" ∧
    (afterExtract today0 "50 EUR" overwritePending).currency ≠ overwritePending.currency := by
  refine ⟨rfl, by decide, by decide, by decide, by decide⟩

/-- C3 (amended).  Field extraction is additive on *truthy* slots: every
pending field that is truthy (non-null, non-empty, non-zero) before the pass
keeps exactly its value — except that the price/currency pair is only
guaranteed stable when *both* are truthy (a falsy price lets a later match
overwrite both).  Fields the pass never assigns (category, city, country,
discount) are always unchanged, and all of this holds whether the pass
completes or raises mid-way. -/
theorem claimC3_truthy_fields_additive (today : Date) (text : String) (p : Pending) :
    (truthyStr p.product_name = true →
      (afterExtract today text p).product_name = p.product_name) ∧
    (truthyStr p.store_name = true →
      (afterExtract today text p).store_name = p.store_name) ∧
    (truthyStr p.reason_raw = true →
      (afterExtract today text p).reason_raw = p.reason_raw) ∧
    (truthyDate p.purchase_date = true →
      (afterExtract today text p).purchase_date = p.purchase_date) ∧
    (truthyDate p.return_date = true →
      (afterExtract today text p).return_date = p.return_date) ∧
    (truthyRat p.price = true → truthyStr p.currency = true →
      (afterExtract today text p).price = p.price ∧
      (afterExtract today text p).currency = p.currency) ∧
    (afterExtract today text p).product_category = p.product_category ∧
    (afterExtract today text p).city = p.city ∧
    (afterExtract today text p).country = p.country ∧
    (afterExtract today text p).discount_pct = p.discount_pct := by
  obtain ⟨a1, a2, a3, a4, a5, a6, a7, a8, a9, a10⟩ := productPass_keeps text p
  obtain ⟨b1, b2, b3, b4, b5, b6, b7, b8, b9, b10⟩ :=
    storePass_keeps text (productPass text p)
  obtain ⟨c1, c2, c3, c4, c5, c6, c7, c8, c9, c10⟩ :=
    reasonPass_keeps text (storePass text (productPass text p))
  obtain ⟨d1, d2, d3, d4, d5, d6, d7, d8, d9⟩ :=
    pricePass_keeps text (reasonPass text (storePass text (productPass text p)))
  have hprod : truthyStr p.product_name = true →
      (pricePass text (reasonPass text (storePass text (productPass text p)))).product_name
        = p.product_name := by
    intro h
    rw [d1, c1, b1, productPass_truthy text p h]
  have hstore : truthyStr p.store_name = true →
      (pricePass text (reasonPass text (storePass text (productPass text p)))).store_name
        = p.store_name := by
    intro h
    rw [d2, c2, storePass_truthy text (productPass text p) (by rw [a1]; exact h), a1]
  have hreason : truthyStr p.reason_raw = true →
      (pricePass text (reasonPass text (storePass text (productPass text p)))).reason_raw
        = p.reason_raw := by
    intro h
    have h2 : (storePass text (productPass text p)).reason_raw = p.reason_raw := by
      rw [b2, a2]
    rw [d3, reasonPass_truthy text _ (by rw [h2]; exact h), h2]
  have hprice : truthyRat p.price = true → truthyStr p.currency = true →
      (pricePass text (reasonPass text (storePass text (productPass text p)))).price = p.price ∧
      (pricePass text (reasonPass text (storePass text (productPass text p)))).currency
        = p.currency := by
    intro h1 h2
    have e1 : (reasonPass text (storePass text (productPass text p))).price = p.price := by
      rw [c3, b3, a3]
    have e2 : (reasonPass text (storePass text (productPass text p))).currency = p.currency := by
      rw [c4, b4, a4]
    rw [pricePass_truthy text _ (by rw [e1]; exact h1) (by rw [e2]; exact h2)]
    exact ⟨e1, e2⟩
  have hpd : (pricePass text (reasonPass text (storePass text (productPass text p)))).purchase_date
      = p.purchase_date := by rw [d4, c5, b5, a5]
  have hrd : (pricePass text (reasonPass text (storePass text (productPass text p)))).return_date
      = p.return_date := by rw [d5, c6, b6, a6]
  have hcat : (pricePass text (reasonPass text
      (storePass text (productPass text p)))).product_category = p.product_category := by
    rw [d6, c7, b7, a7]
  have hcity : (pricePass text (reasonPass text (storePass text (productPass text p)))).city
      = p.city := by rw [d7, c8, b8, a8]
  have hctry : (pricePass text (reasonPass text (storePass text (productPass text p)))).country
      = p.country := by rw [d8, c9, b9, a9]
  have hdisc : (pricePass text (reasonPass text
      (storePass text (productPass text p)))).discount_pct = p.discount_pct := by
    rw [d9, c10, b10, a10]
  rcases afterExtract_eq today text p with ⟨p5, hok, hF⟩ | hF
  · obtain ⟨k1, k2, k3, k4, k5, k6, k7, k8, k9, k10⟩ :=
      purchasePass_ok_keeps today text _ p5 hok
    obtain ⟨m1, m2, m3, m4, m5, m6, m7, m8, m9, m10⟩ := returnDatePass_keeps today text p5
    refine ⟨?_, ?_, ?_, ?_, ?_, ?_, ?_, ?_, ?_, ?_⟩
    · intro h
      rw [hF, m1, k1, hprod h]
    · intro h
      rw [hF, m2, k2, hstore h]
    · intro h
      rw [hF, m3, k3, hreason h]
    · intro h
      have hokp : purchasePass today text
          (pricePass text (reasonPass text (storePass text (productPass text p)))) = .ok
          (pricePass text (reasonPass text (storePass text (productPass text p)))) :=
        purchasePass_truthy today text _ (by rw [hpd]; exact h)
      rw [hok] at hokp
      cases hokp
      rw [hF, m6, hpd]
    · intro h
      have h5 : p5.return_date = p.return_date := by rw [k6, hrd]
      rw [hF, returnDatePass_truthy today text p5 (by rw [h5]; exact h), h5]
    · intro h1 h2
      obtain ⟨e1, e2⟩ := hprice h1 h2
      constructor
      · rw [hF, m4, k4, e1]
      · rw [hF, m5, k5, e2]
    · rw [hF, m7, k7, hcat]
    · rw [hF, m8, k8, hcity]
    · rw [hF, m9, k9, hctry]
    · rw [hF, m10, k10, hdisc]
  · refine ⟨?_, ?_, ?_, ?_, ?_, ?_, ?_, ?_, ?_, ?_⟩
    · intro h
      rw [hF, hprod h]
    · intro h
      rw [hF, hstore h]
    · intro h
      rw [hF, hreason h]
    · intro h
      rw [hF, hpd]
    · intro h
      rw [hF, hrd]
    · intro h1 h2
      obtain ⟨e1, e2⟩ := hprice h1 h2
      exact ⟨by rw [hF, e1], by rw [hF, e2]⟩
    · rw [hF, hcat]
    · rw [hF, hcity]
    · rw [hF, hctry]
    · rw [hF, hdisc]

/-- C3 witness: on a fully truthy pending dict, a fresh utterance changes
nothing. -/
theorem claimC3_witness :
    (afterExtract today0 "predict 99 USD today 2025-03-03" filledPending).product_name
      = filledPending.product_name ∧
    (afterExtract today0 "predict 99 USD today 2025-03-03" filledPending).store_name
      = filledPending.store_name ∧
    (afterExtract today0 "predict 99 USD today 2025-03-03" filledPending).reason_raw
      = filledPending.reason_raw ∧
    (afterExtract today0 "predict 99 USD today 2025-03-03" filledPending).purchase_date
      = filledPending.purchase_date ∧
    (afterExtract today0 "predict 99 USD today 2025-03-03" filledPending).return_date
      = filledPending.return_date ∧
    (afterExtract today0 "predict 99 USD today 2025-03-03" filledPending).price
      = filledPending.price ∧
    (afterExtract today0 "predict 99 USD today 2025-03-03" filledPending).currency
      = filledPending.currency := by
  obtain ⟨h1, h2, h3, h4, h5, h6, _⟩ :=
    claimC3_truthy_fields_additive today0 "predict 99 USD today 2025-03-03" filledPending
  obtain ⟨h6a, h6b⟩ := h6 (by decide) (by decide)
  exact ⟨h1 (by decide), h2 (by decide), h3 (by decide), h4 (by decide), h5 (by decide),
    h6a, h6b⟩

/-- C4 counterexample.  A turn dispatched to forecast over an empty history
does *not* leave the session with mode = none: the `ValueError` propagates
before the reset, and the caller's state object is left with
mode = "forecast". -/
theorem claimC4_counterexample :
    (handleMessage embZero today0 ts0 "forecast" {} {}).1
      = .error (.valueError emptySeriesMsg) ∧
    (handleMessage embZero today0 ts0 "forecast" {} {}).2.1.mode = some "forecast" :=
  ⟨rfl, rfl⟩

/-- C4 (amended).  For a turn starting outside the return-collection mode
and dispatched to analytics, forecast or retrieval: when the dispatched call
returns normally the session is left with mode = none, but when the
collaborator raises (e.g. forecast over an empty history, or retrieval with
an unbuilt index), the exception propagates and the session is left with
mode equal to the classified intent — not none. -/
theorem claimC4_mode_reset_on_success_only
    (emb : String → List Q) (today : Date) (ts : String) (text : String)
    (s : ConversationState) (env : Env)
    (hmode : s.mode ≠ some "insert_return")
    (hint : classifyIntent (pyStrip text) ≠ "insert_return") :
    (∀ msg, (handleMessage emb today ts text s env).1 = .ok msg →
      (handleMessage emb today ts text s env).2.1.mode = none) ∧
    (∀ e, (handleMessage emb today ts text s env).1 = .error e →
      (handleMessage emb today ts text s env).2.1.mode
        = some (classifyIntent (pyStrip text))) := by
  unfold handleMessage
  rw [if_neg hmode]
  by_cases h1 : classifyIntent (pyStrip text) = "forecast"
  · rw [if_pos h1]
    unfold handleForecast
    cases hf : forecast env.store ⟨"daily_return_volume", 14⟩ with
    | error e => simp [hf, h1]
    | ok resp => simp [hf]
  · rw [if_neg h1]
    by_cases h2 : classifyIntent (pyStrip text) = "analytics"
    · rw [if_pos h2]
      unfold handleAnalytics
      simp
    · rw [if_neg h2, if_neg hint]
      unfold handleRag
      cases hr : retrieve emb (buildIndex emb env.store env.rag) ⟨pyStrip text, 3⟩ with
      | error e => simp [hr]
      | ok res => cases res <;> simp [hr]

/-- C4 witness: a successful retrieval turn resets the mode to none, applied
at a concrete store with one record. -/
theorem claimC4_witness :
    (∀ msg, (handleMessage embZero today0 ts0 "hello"
        {} ⟨fiveStore, {}⟩).1 = .ok msg →
      (handleMessage embZero today0 ts0 "hello" {} ⟨fiveStore, {}⟩).2.1.mode = none) ∧
    (∀ e, (handleMessage embZero today0 ts0 "hello" {} ⟨fiveStore, {}⟩).1 = .error e →
      (handleMessage embZero today0 ts0 "hello" {} ⟨fiveStore, {}⟩).2.1.mode
        = some (classifyIntent (pyStrip "hello"))) :=
  claimC4_mode_reset_on_success_only embZero today0 ts0 "hello" {} ⟨fiveStore, {}⟩
    (by decide) (by decide)

/-- C5.  From a table not containing the request's fingerprint, the first
insert succeeds; a second insert agreeing on the
(product, store, purchase_date, price, currency) tuple fails with the
duplicate `ValueError`, the failed insert leaves the table exactly as it
was, and afterwards exactly one row carries that fingerprint. -/
theorem claimC5_duplicate_insert (store : List Row) (r1 r2 : InsertReturnRequest)
    (hfree : ∀ row ∈ store, row.dedupe_key ≠ generateDedupeKey r1)
    (htup : keyTuple r2 = keyTuple r1) :
    (∃ resp, (insertReturn store r1).1 = .ok resp) ∧
    (insertReturn (insertReturn store r1).2 r2).1 = .error (.valueError duplicateMsg) ∧
    (insertReturn (insertReturn store r1).2 r2).2 = (insertReturn store r1).2 ∧
    ((insertReturn store r1).2.filter
      (fun row => row.dedupe_key == generateDedupeKey r2)).length = 1 := by
  have hkey : generateDedupeKey r2 = generateDedupeKey r1 := by
    unfold keyTuple at htup
    obtain ⟨h1, h2, h3, h4, h5⟩ : r2.product_name = r1.product_name ∧
        r2.store_name = r1.store_name ∧ r2.purchase_date = r1.purchase_date ∧
        r2.price = r1.price ∧ r2.currency = r1.currency := by
      simpa [Prod.ext_iff] using htup
    unfold generateDedupeKey rawKey
    rw [h1, h2, h3, h4, h5]
  have hany : store.any (fun row => row.dedupe_key == generateDedupeKey r1) = false := by
    rw [List.any_eq_false]
    intro row hrow
    simpa using hfree row hrow
  have hnil : store.filter (fun row => row.dedupe_key == generateDedupeKey r1) = [] := by
    rw [List.filter_eq_nil_iff]
    intro row hrow
    simpa using hfree row hrow
  refine ⟨?_, ?_, ?_, ?_⟩ <;>
    simp [insertReturn, hkey, hany, List.any_append, List.filter_append, hnil]

/-- C5 witness: the double-insert scenario on an empty table with two
concrete requests sharing the natural-key tuple. -/
theorem claimC5_witness :
    (∃ resp, (insertReturn [] reqA).1 = .ok resp) ∧
    (insertReturn (insertReturn [] reqA).2 reqB).1 = .error (.valueError duplicateMsg) ∧
    (insertReturn (insertReturn [] reqA).2 reqB).2 = (insertReturn [] reqA).2 ∧
    ((insertReturn [] reqA).2.filter
      (fun row => row.dedupe_key == generateDedupeKey reqB)).length = 1 :=
  claimC5_duplicate_insert [] reqA reqB (by simp) (by decide)

/-- C8.  `forecast` fails on an empty history; on a non-empty history it
predicts, for each of the `horizon_days` consecutive dates after the last
observed return date, the constant mean of the trailing window of size
min(7, series length) of the daily counts series (history grouped by
return_date), and reports as MAE the mean absolute error of that constant
against the actual trailing-window values.  In particular a single-day
history of count 5 predicts 5.0 for every horizon day with MAE 0.0. -/
theorem claimC8_forecast_constant_window_mean :
    (∀ (store : List Row) (req : ForecastRequest),
      (store = [] → forecast store req = .error (.valueError emptySeriesMsg)) ∧
      (store ≠ [] → ∃ resp ld,
        forecast store req = .ok resp ∧
        ld ∈ store.map (fun r => r.return_date) ∧
        (∀ d ∈ store.map (fun r => r.return_date), d.toDays ≤ ld.toDays) ∧
        resp.predictions = (List.range req.horizon_days).map
          (fun i => ForecastPoint.mk (ld.addDays (i + 1))
            (meanQ (trailingWindow (seriesCounts store)))) ∧
        resp.target = req.target ∧
        resp.horizon_days = req.horizon_days ∧
        resp.metric = "MAE" ∧
        resp.metric_value = maeConst (trailingWindow (seriesCounts store))
          (meanQ (trailingWindow (seriesCounts store))))) ∧
    (∃ resp, forecast fiveStore ⟨"daily_return_volume", 14⟩ = .ok resp ∧
      resp.predictions.length = 14 ∧
      (∀ pt ∈ resp.predictions, pt.predicted_value = 5) ∧
      resp.metric_value = 0) := by
  constructor
  · intro store req
    constructor
    · rintro rfl
      rfl
    · intro hne
      have hdf := loadDailySeries_ne_nil store hne
      obtain ⟨p, ps, hdfe⟩ := List.exists_cons_of_ne_nil hdf
      have hwin : trailingWindow (seriesCounts store) =
          ((p :: ps).drop ((p :: ps).length - min 7 (p :: ps).length)).map
            (fun x => Q.ofNat x.2) := by
        rw [trailingWindow, seriesCounts, hdfe, List.length_map, List.map_drop]
      have hwlen : (trailingWindow (seriesCounts store)).length = min 7 (p :: ps).length := by
        rw [hwin, List.length_map, List.length_drop]
        omega
      have hmean : meanQ (trailingWindow (seriesCounts store)) =
          (qsum (((p :: ps).drop ((p :: ps).length - min 7 (p :: ps).length)).map
            (fun x => Q.ofNat x.2))).div (Q.ofNat (min 7 (p :: ps).length)) := by
        rw [meanQ, hwlen, hwin]
      have hmae : maeConst (trailingWindow (seriesCounts store))
            (meanQ (trailingWindow (seriesCounts store))) =
          (qsum (((p :: ps).drop ((p :: ps).length - min 7 (p :: ps).length)).map
            (fun x => ((Q.ofNat x.2).sub
              ((qsum (((p :: ps).drop ((p :: ps).length - min 7 (p :: ps).length)).map
                (fun y => Q.ofNat y.2))).div (Q.ofNat (min 7 (p :: ps).length)))).qabs))).div
            (Q.ofNat (min 7 (p :: ps).length)) := by
        rw [maeConst, hmean, hwlen, hwin, List.map_map]
        rfl
      have hfst : p.1 :: ps.map Prod.fst =
          sortByKey Date.toDays ((store.map (fun r => r.return_date)).dedup) := by
        have h2 := loadDailySeries_map_fst store hne
        rw [hdfe] at h2
        simpa using h2
      have hmemiff : ∀ d : Date,
          d ∈ p.1 :: ps.map Prod.fst ↔ d ∈ store.map (fun r => r.return_date) := by
        intro d
        rw [hfst, mem_sortByKey, List.mem_dedup]
      have hfc : forecast store req = .ok
          ⟨req.target, req.horizon_days,
            (List.range req.horizon_days).map
              (fun i => ForecastPoint.mk
                ((dateMaxFrom p.1 (ps.map Prod.fst)).addDays (i + 1))
                ((qsum (((p :: ps).drop ((p :: ps).length - min 7 (p :: ps).length)).map
                  (fun x => Q.ofNat x.2))).div (Q.ofNat (min 7 (p :: ps).length)))),
            "7-day moving average", "MAE",
            (qsum (((p :: ps).drop ((p :: ps).length - min 7 (p :: ps).length)).map
              (fun x => ((Q.ofNat x.2).sub
                ((qsum (((p :: ps).drop ((p :: ps).length - min 7 (p :: ps).length)).map
                  (fun y => Q.ofNat y.2))).div (Q.ofNat (min 7 (p :: ps).length)))).qabs))).div
              (Q.ofNat (min 7 (p :: ps).length))⟩ := by
        unfold forecast
        rw [hdfe]
      refine ⟨_, dateMaxFrom p.1 (ps.map Prod.fst), hfc, ?_, ?_, ?_, ?_, ?_, ?_, ?_⟩
      · rcases dateMaxFrom_mem (ps.map Prod.fst) p.1 with h | h
        · rw [h]
          exact (hmemiff p.1).mp (List.mem_cons_self _ _)
        · exact (hmemiff _).mp (List.mem_cons_of_mem _ h)
      · intro d hd
        obtain ⟨h1, h2⟩ := dateMaxFrom_ge (ps.map Prod.fst) p.1
        rcases List.mem_cons.mp ((hmemiff d).mpr hd) with rfl | hmem
        · exact h1
        · exact h2 d hmem
      · rw [hmean]
      · rfl
      · rfl
      · rfl
      · rw [hmae]
  · exact ⟨_, rfl, by decide, by decide, by decide⟩

/-- C8 witness: the two branches applied at the empty history and at the
five-row single-day history. -/
theorem claimC8_witness :
    forecast [] ⟨"daily_return_volume", 14⟩ = .error (.valueError emptySeriesMsg) ∧
    (∃ resp ld,
      forecast fiveStore ⟨"daily_return_volume", 14⟩ = .ok resp ∧
      ld ∈ fiveStore.map (fun r => r.return_date) ∧
      (∀ d ∈ fiveStore.map (fun r => r.return_date), d.toDays ≤ ld.toDays) ∧
      resp.predictions = (List.range (14 : Nat)).map
        (fun i => ForecastPoint.mk (ld.addDays (i + 1))
          (meanQ (trailingWindow (seriesCounts fiveStore)))) ∧
      resp.target = "daily_return_volume" ∧
      resp.horizon_days = 14 ∧
      resp.metric = "MAE" ∧
      resp.metric_value = maeConst (trailingWindow (seriesCounts fiveStore))
        (meanQ (trailingWindow (seriesCounts fiveStore)))) :=
  ⟨(claimC8_forecast_constant_window_mean.1 [] ⟨"daily_return_volume", 14⟩).1 rfl,
    (claimC8_forecast_constant_window_mean.1 fiveStore
      ⟨"daily_return_volume", 14⟩).2 (by decide)⟩

/-- C10.  The completion check tests required fields by Python truthiness,
so a pending price of 0.0 (e.g. extracted from "0 USD") counts as missing:
whenever the extraction pass leaves price = 0.0, no submission is attempted
(the table and mode are untouched and the turn returns a prompt — the
price/currency prompt once every other required field is truthy); and a
completion (empty missing list) forces a truthy — hence non-zero — price, so
a return priced 0 can never be submitted through the dialogue. -/
theorem claimC10_zero_price_never_submits (today : Date) (text : String)
    (s : ConversationState) (store : List Row) :
    (∀ p' q, extractFields today text s.pending = .ok p' → p'.price = some q →
      q.num = 0 →
      handleInsertFlow today text s store =
        (.ok (askNext (missingFields p')), { s with pending := p' }, store) ∧
      "price" ∈ missingFields p' ∧
      (truthyStr p'.product_name = true → truthyStr p'.store_name = true →
        truthyDate p'.purchase_date = true → truthyStr p'.reason_raw = true →
        askNext (missingFields p') = "What was the price and currency?")) ∧
    (∀ p', extractFields today text s.pending = .ok p' → missingFields p' = [] →
      truthyRat p'.price = true) := by
  constructor
  · intro p' q hext hq hnum
    have hft : fieldTruthy p' "price" = false := by
      simp [fieldTruthy, truthyRat, hq, hnum]
    have hmem : "price" ∈ missingFields p' := by
      simp [missingFields, requiredFields, List.mem_filter, hft]
    have hne : missingFields p' ≠ [] := List.ne_nil_of_mem hmem
    refine ⟨?_, hmem, ?_⟩
    · unfold handleInsertFlow
      rw [hext]
      simp only [List.isEmpty_eq_true]
      rw [if_pos (by simpa using hne)]
    · intro h1 h2 h3 h4
      have hpr : truthyRat p'.price = false := by simp [truthyRat, hq, hnum]
      cases hcur : truthyStr p'.currency with
      | true =>
        have hl : missingFields p' = ["price"] := by
          simp [missingFields, requiredFields, List.filter, fieldTruthy,
            h1, h2, h3, h4, hpr, hcur]
        rw [hl]
        decide
      | false =>
        have hl : missingFields p' = ["price", "currency"] := by
          simp [missingFields, requiredFields, List.filter, fieldTruthy,
            h1, h2, h3, h4, hpr, hcur]
        rw [hl]
        decide
  · intro p' hext hmf
    have hpf := List.filter_eq_nil_iff.mp hmf "price" (by simp [requiredFields])
    simpa [fieldTruthy] using hpf

/-- C10 witness: mid-collection with everything but the price/currency pair
filled, "0 USD" leaves price = 0.0 and the coordinator answers with the
price/currency prompt instead of submitting. -/
theorem claimC10_witness :
    handleInsertFlow today0 "0 USD" priceZeroState [] =
      (.ok (askNext (missingFields priceZeroExtracted)),
        { priceZeroState with pending := priceZeroExtracted }, []) ∧
    "price" ∈ missingFields priceZeroExtracted ∧
    askNext (missingFields priceZeroExtracted) = "What was the price and currency?" := by
  obtain ⟨h1, _⟩ := claimC10_zero_price_never_submits today0 "0 USD" priceZeroState []
  obtain ⟨ha, hb, hc⟩ := h1 priceZeroExtracted ⟨0, 1⟩ (by decide) (by decide) (by decide)
  exact ⟨ha, hb, hc (by decide) (by decide) (by decide) (by decide)⟩

end ReturnsIntel
